import Mathlib

/-!
# Promptuna core — verification of the natural-language specification

Shallow embedding, in Lean 4, of the parts of the Promptuna SDK
(configuration-driven prompt routing and execution engine) that the frozen
claims C1–C10 are about, together with theorems settling each claim.

Embedded source files:
* `src/utils/variantSelector.ts` — `deterministicRandom`, `pickWeighted`,
  `selectVariant` (routing);
* Node's `crypto` SHA-256 (external standard primitive used by
  `deterministicRandom`), implemented bit-faithfully over `Nat`;
* `src/utils/fallbackExecutor.ts` — `executeWithFallback`;
* `src/providers/providerCapabilities.ts` and
  `src/utils/normalizeParameters.ts` — `ProviderCapabilities`,
  `buildProviderParams`;
* `src/providers/anthropic.ts` — the request object built by
  `AnthropicProvider.chatCompletion`;
* `src/validation/index.ts` (`validateConfig`) and
  `src/validators/configValidator.ts`
  (`ConfigValidator.validateAndLoadConfigFile`) — the two validation entry
  points, over a typed configuration AST mirroring `schema.json`;
* `src/utils/observabilityBuilder.ts` / `src/observability/builder.ts`
  (`ObservabilityBuilder`) and `src/Promptuna.ts` (`chatCompletion`) —
  telemetry emission and the orchestrator's control flow.

JavaScript `Record<string, T>` objects are modelled as insertion-ordered
association lists (`List (String × T)`); property assignment updates an
existing key in place (keeping its position) and appends a fresh key, and
`Object.entries` enumerates in that order, exactly as ECMAScript specifies
for string keys.  Machine integers do not occur (JS numbers holding weights,
temperatures, timestamps are modelled as `ℚ` / `Int`); the only place where
32-bit arithmetic matters is SHA-256, modelled as `Nat` with explicit
`% 2^32`.  Exceptions are modelled with `Except`.
-/

deriving instance DecidableEq for Except

namespace Promptuna

/-! ## JavaScript object model: insertion-ordered string-keyed records -/

/-- JS property assignment `m[k] = v`: update in place if the key exists
(keeping its insertion position), otherwise append. -/
def jsInsert (m : List (String × α)) (k : String) (v : α) : List (String × α) :=
  if m.any (fun p => p.1 = k) then
    m.map (fun p => if p.1 = k then (k, v) else p)
  else
    m ++ [(k, v)]

/-- JS property read `m[k]`, `undefined` as `none`. -/
def jsGet (m : List (String × α)) (k : String) : Option α :=
  (m.find? (fun p => p.1 = k)).map (·.2)

/-- JS `Object.keys`. -/
def jsKeys (m : List (String × α)) : List String := m.map (·.1)

/-! ## SHA-256 (FIPS 180-4) over `Nat`, words kept `< 2^32`

`deterministicRandom` in `src/utils/variantSelector.ts` calls Node's
`createHash('sha256')` on the UTF-8 encoding of `"{userId}:{promptId}:{salt}"`
and keeps the first 8 hex digits of the digest, i.e. the first 32-bit word
(the final `h₀`) of the hash, big-endian. -/

/-- `2^32`. -/
def w32 : Nat := 4294967296

/-- Addition modulo `2^32`. -/
def add32 (a b : Nat) : Nat := (a + b) % w32

/-- Right rotation of a 32-bit word. -/
def rotr32 (n x : Nat) : Nat := ((x >>> n) ||| (x <<< (32 - n))) % w32

/-- Bitwise complement of a 32-bit word. -/
def not32 (x : Nat) : Nat := (w32 - 1) - x

/-- Three-way xor. -/
def xor3 (a b c : Nat) : Nat := Nat.xor (Nat.xor a b) c

def bsig0 (x : Nat) : Nat := xor3 (rotr32 2 x) (rotr32 13 x) (rotr32 22 x)
def bsig1 (x : Nat) : Nat := xor3 (rotr32 6 x) (rotr32 11 x) (rotr32 25 x)
def ssig0 (x : Nat) : Nat := xor3 (rotr32 7 x) (rotr32 18 x) (x >>> 3)
def ssig1 (x : Nat) : Nat := xor3 (rotr32 17 x) (rotr32 19 x) (x >>> 10)
def ch32 (x y z : Nat) : Nat := Nat.xor (Nat.land x y) (Nat.land (not32 x) z)
def maj32 (x y z : Nat) : Nat :=
  xor3 (Nat.land x y) (Nat.land x z) (Nat.land y z)

/-- The 64 SHA-256 round constants. -/
def sha256K : List Nat :=
  [1116352408, 1899447441, 3049323471, 3921009573,
   961987163, 1508970993, 2453635748, 2870763221,
   3624381080, 310598401, 607225278, 1426881987,
   1925078388, 2162078206, 2614888103, 3248222580,
   3835390401, 4022224774, 264347078, 604807628,
   770255983, 1249150122, 1555081692, 1996064986,
   2554220882, 2821834349, 2952996808, 3210313671,
   3336571891, 3584528711, 113926993, 338241895,
   666307205, 773529912, 1294757372, 1396182291,
   1695183700, 1986661051, 2177026350, 2456956037,
   2730485921, 2820302411, 3259730800, 3345764771,
   3516065817, 3600352804, 4094571909, 275423344,
   430227734, 506948616, 659060556, 883997877,
   958139571, 1322822218, 1537002063, 1747873779,
   1955562222, 2024104815, 2227730452, 2361852424,
   2428436474, 2756734187, 3204031479, 3329325298]

/-- SHA-256 working state `a`–`h`. -/
structure Sha256State where
  a : Nat
  b : Nat
  c : Nat
  d : Nat
  e : Nat
  f : Nat
  g : Nat
  h : Nat
deriving Repr, DecidableEq

/-- Initial hash value `H⁽⁰⁾`. -/
def sha256H0 : Sha256State :=
  ⟨1779033703, 3144134277, 1013904242, 2773480762,
   1359893119, 2600822924, 528734635, 1541459225⟩

/-- One compression round. -/
def sha256Round (st : Sha256State) (k w : Nat) : Sha256State :=
  let t1 := add32 st.h (add32 (bsig1 st.e) (add32 (ch32 st.e st.f st.g) (add32 k w)))
  let t2 := add32 (bsig0 st.a) (maj32 st.a st.b st.c)
  ⟨add32 t1 t2, st.a, st.b, st.c, add32 st.d t1, st.e, st.f, st.g⟩

/-- Extend a 16-word block to the 64-word message schedule (48 steps). -/
def sha256Extend (acc : List Nat) : Nat → List Nat
  | 0 => acc
  | n + 1 =>
    let t := acc.length
    let w := add32 (add32 (ssig1 (acc.getD (t - 2) 0)) (acc.getD (t - 7) 0))
                   (add32 (ssig0 (acc.getD (t - 15) 0)) (acc.getD (t - 16) 0))
    sha256Extend (acc ++ [w]) n

/-- Compress one 512-bit block into the running hash. -/
def sha256Block (H : Sha256State) (block : List Nat) : Sha256State :=
  let ws := sha256Extend block 48
  let st := (ws.zip sha256K).foldl (fun st p => sha256Round st p.2 p.1) H
  ⟨add32 H.a st.a, add32 H.b st.b, add32 H.c st.c, add32 H.d st.d,
   add32 H.e st.e, add32 H.f st.f, add32 H.g st.g, add32 H.h st.h⟩

/-- Big-endian bytes of `n`, `len` bytes. -/
def beBytes (n len : Nat) : List Nat :=
  (List.range len).map (fun i => (n >>> (8 * (len - 1 - i))) % 256)

/-- Merkle–Damgård padding: `0x80`, zeros to 56 mod 64, 8-byte bit length. -/
def sha256Pad (msg : List Nat) : List Nat :=
  let len := msg.length
  let k := (119 - len % 64) % 64
  msg ++ [0x80] ++ List.replicate k 0 ++ beBytes (8 * len) 8

/-- Group bytes into big-endian 32-bit words. -/
def bytesToWords : List Nat → List Nat
  | a :: b :: c :: d :: rest => (((a * 256 + b) * 256 + c) * 256 + d) :: bytesToWords rest
  | _ => []

/-- Group a word list into 16-word blocks (fuel-driven so that the kernel
can evaluate it; the fuel is the list length). -/
def chunk16Go : Nat → List Nat → List (List Nat)
  | 0, _ => []
  | _, [] => []
  | fuel + 1, w :: rest => ((w :: rest).take 16) :: chunk16Go fuel ((w :: rest).drop 16)

/-- Group a word list into 16-word blocks. -/
def chunk16 (ws : List Nat) : List (List Nat) := chunk16Go ws.length ws

/-- SHA-256 of a byte list, as the final state (digest = `a ‖ b ‖ … ‖ h`). -/
def sha256 (msg : List Nat) : Sha256State :=
  (chunk16 (bytesToWords (sha256Pad msg))).foldl sha256Block sha256H0

/-- UTF-8 encoding of one code point. -/
def utf8EncodeChar (c : Char) : List Nat :=
  let n := c.toNat
  if n < 0x80 then [n]
  else if n < 0x800 then
    [0xC0 ||| (n >>> 6), 0x80 ||| (n &&& 0x3F)]
  else if n < 0x10000 then
    [0xE0 ||| (n >>> 12), 0x80 ||| ((n >>> 6) &&& 0x3F), 0x80 ||| (n &&& 0x3F)]
  else
    [0xF0 ||| (n >>> 18), 0x80 ||| ((n >>> 12) &&& 0x3F),
     0x80 ||| ((n >>> 6) &&& 0x3F), 0x80 ||| (n &&& 0x3F)]

/-- UTF-8 encoding of a string, as byte values. -/
def utf8Bytes (s : String) : List Nat :=
  s.data.foldl (fun acc c => acc ++ utf8EncodeChar c) []

/-- `createHash('sha256').update(s).digest('hex').slice(0, 8)` parsed as hex:
the first 32 bits of the digest as an unsigned big-endian integer, i.e. the
final `h₀` word. -/
def sha256First32 (s : String) : Nat := (sha256 (utf8Bytes s)).a

/-! ## Configuration data model

Typed AST for the configuration, mirroring `schema.json` and the TypeScript
interfaces in `src/config/types.ts` / `src/routing/types.ts`.  Optional JSON
properties are `Option` fields.  The `chains` field is accepted by the schema
but read by no embedded code path, so it is not carried.  JSON-Schema
fragments under `responseSchemas` are opaque to the core except for the one
bit the validator observes about them — whether `ajv.validateSchema` (an
external collaborator) accepts them — so a fragment is modelled as that
bit. -/

/-- A `responseSchemas` entry: an opaque JSON-Schema fragment, carrying the
outcome of the external `ajv.validateSchema` meta-schema check. -/
structure SchemaFragment where
  metaOk : Bool
deriving Repr, DecidableEq

/-- A value of a canonical model-parameter bag (`Record<string, any>`).
Canonical parameters are numbers, string arrays (`stop`) or integer maps
(`logit_bias`); `nan` models the JS `NaN` produced when a scale function is
applied to a non-number (JS `ToNumber` coercion of numeric strings is not
modelled — no embedded call site passes one). -/
inductive Val where
  | num (q : ℚ)
  | nan
  | str (s : String)
  | strList (l : List String)
  | intMap (m : List (String × Int))
deriving Repr, DecidableEq

structure ProviderConfig where
  type : String
deriving Repr, DecidableEq

inductive Role where
  | system
  | user
  | assistant
deriving Repr, DecidableEq

structure MessageContent where
  template : String
deriving Repr, DecidableEq

structure Message where
  role : Role
  content : MessageContent
deriving Repr, DecidableEq

inductive ResponseFormatType where
  | json_schema
  | raw_text
deriving Repr, DecidableEq

structure ResponseFormat where
  type : ResponseFormatType
  schemaRef : Option String := none
deriving Repr, DecidableEq

structure FallbackTarget where
  provider : String
  model : String
deriving Repr, DecidableEq

structure RoutingRule where
  target : String
  weight : Option ℚ := none
  tags : Option (List String) := none
deriving Repr, DecidableEq

structure PhasedRule where
  start : Int
  «end» : Option Int := none
  weights : List (String × ℚ)
deriving Repr, DecidableEq

structure Routing where
  rules : List RoutingRule
  phased : Option (List PhasedRule) := none
deriving Repr, DecidableEq

structure Variant where
  provider : String
  model : String
  default : Option Bool := none
  parameters : Option (List (String × Val)) := none
  messages : List Message
  responseFormat : Option ResponseFormat := none
  fallback : Option (List FallbackTarget) := none
deriving Repr, DecidableEq

/-- `routing` is `Option` because `selectVariant` tolerates its absence
(`prompt.routing ?? {}`); the structural schema makes it required. -/
structure Prompt where
  description : String := ""
  variants : List (String × Variant)
  routing : Option Routing := none
deriving Repr, DecidableEq

structure Config where
  version : String
  providers : List (String × ProviderConfig)
  responseSchemas : Option (List (String × SchemaFragment)) := none
  prompts : List (String × Prompt)
deriving Repr, DecidableEq

/-! ## Variant selection (`src/utils/variantSelector.ts`)

`Math.random()` (the draw used when `userId` is absent or empty) is a
nondeterministic input; it is threaded in as an explicit argument `rng`, so
every theorem quantifying over `rng` covers every possible draw. -/

inductive Reason where
  | tagMatch
  | phasedRollout
  | weightDistribution
  | default
deriving Repr, DecidableEq

structure VariantSelection where
  variantId : String
  variant : Variant
  reason : Reason
  weightPicked : Option ℚ := none
deriving Repr, DecidableEq

structure VariantSelectorParams where
  prompt : Prompt
  promptId : String
  userId : Option String := none
  tags : List String := []
  now : Int
deriving Repr

/-- JS falsiness of `string | undefined` (`!userId`). -/
def jsFalsyStr : Option String → Bool
  | none => true
  | some s => s = ""

/-- `deterministicRandom(userId, promptId, salt)`: `Math.random()` (the `rng`
argument) without a usable `userId`, otherwise the first 32 bits of
`SHA-256("{userId}:{promptId}:{salt}")` divided by `0xffffffff`. -/
def deterministicRandom (rng : ℚ) (userId : Option String)
    (promptId salt : String) : ℚ :=
  if jsFalsyStr userId then rng
  else
    (sha256First32 ((userId.getD "") ++ ":" ++ promptId ++ ":" ++ salt) : ℚ)
      / 0xffffffff

/-- The subtraction loop of `pickWeighted`. -/
def pickLoop : List (String × ℚ) → ℚ → Option (String × ℚ)
  | [], _ => none
  | (k, w) :: rest, threshold =>
    if threshold - w < 0 then some (k, w) else pickLoop rest (threshold - w)

/-- `pickWeighted(weights, rand)`; on an empty map the source dereferences
`entries[0]` and crashes with a `TypeError`, modelled as `.error`. -/
def pickWeighted (weights : List (String × ℚ)) (rand : ℚ) :
    Except String (String × ℚ) :=
  let entries := weights
  let total := (entries.map (·.2)).sum
  match pickLoop entries (rand * total) with
  | some kw => .ok kw
  | none =>
    match entries with
    | [] => .error "TypeError: entries[0] is undefined"
    | e :: _ => .ok e

/-- `validateAndGetVariant`. -/
def validateAndGetVariant (variants : List (String × Variant))
    (variantId promptId : String) : Except String Variant :=
  match jsGet variants variantId with
  | none => .error s!"Variant not found in prompt {promptId}"
  | some v => .ok v

def ruleWeight (r : RoutingRule) : ℚ := r.weight.getD 100

/-- The weight map built by both the tag layer and the default layer:
`for (const r of rules) weightMap[r.target] = r.weight ?? 100`. -/
def buildWeightMap (rules : List RoutingRule) : List (String × ℚ) :=
  rules.foldl (fun m r => jsInsert m r.target (ruleWeight r)) []

/-- `rules.filter(r => Array.isArray(r.tags) && r.tags.some(t => tags.includes(t)))`. -/
def tagRulesOf (rules : List RoutingRule) (tags : List String) :
    List RoutingRule :=
  rules.filter fun r =>
    match r.tags with
    | some rtags => rtags.any (fun t => tags.contains t)
    | none => false

/-- `rules.filter(r => !r.tags || r.tags.length === 0)`. -/
def defaultRulesOf (rules : List RoutingRule) : List RoutingRule :=
  rules.filter fun r =>
    match r.tags with
    | some rtags => rtags.isEmpty
    | none => true

/-- `p.start <= now && (p.end === undefined || now <= p.end)`. -/
def phaseActive (now : Int) (p : PhasedRule) : Bool :=
  decide (p.start ≤ now) &&
    (match p.«end» with
     | none => true
     | some e => decide (now ≤ e))

/-- Stable insertion (descending by `start`) — one step of the stable
`sort((a, b) => b.start - a.start)`. -/
def insertDesc (p : PhasedRule) : List PhasedRule → List PhasedRule
  | [] => [p]
  | q :: rest =>
    if p.start ≥ q.start then p :: q :: rest else q :: insertDesc p rest

/-- Stable sort by descending `start` (JS `Array.prototype.sort` is stable). -/
def sortByStartDesc : List PhasedRule → List PhasedRule
  | [] => []
  | p :: rest => insertDesc p (sortByStartDesc rest)

/-- `phases.filter(inWindow).sort((a, b) => b.start - a.start)[0]`. -/
def currentPhaseOf (phases : List PhasedRule) (now : Int) : Option PhasedRule :=
  (sortByStartDesc (phases.filter (phaseActive now))).head?

/-- `selectVariant` (`src/utils/variantSelector.ts`), with the `Math.random()`
draw `rng` explicit and thrown JS errors as `.error`. -/
def selectVariant (rng : ℚ) (params : VariantSelectorParams) :
    Except String VariantSelection :=
  let prompt := params.prompt
  let rules := (prompt.routing.map (·.rules)).getD []
  let tagRules := tagRulesOf rules params.tags
  if tagRules.isEmpty = false then do
    let weightMap := buildWeightMap tagRules
    let rand := deterministicRandom rng params.userId params.promptId "tag"
    let kw ← pickWeighted weightMap rand
    let v ← validateAndGetVariant prompt.variants kw.1 params.promptId
    return ⟨kw.1, v, .tagMatch, some kw.2⟩
  else
    let phases := (prompt.routing.bind (·.phased)).getD []
    match currentPhaseOf phases params.now with
    | some currentPhase => do
      let rand := deterministicRandom rng params.userId params.promptId "phase"
      let kw ← pickWeighted currentPhase.weights rand
      let v ← validateAndGetVariant prompt.variants kw.1 params.promptId
      return ⟨kw.1, v, .phasedRollout, some kw.2⟩
    | none =>
      let defaultRules := defaultRulesOf rules
      if defaultRules.isEmpty = false then do
        let weightMap := buildWeightMap defaultRules
        let rand := deterministicRandom rng params.userId params.promptId "weight"
        let kw ← pickWeighted weightMap rand
        let v ← validateAndGetVariant prompt.variants kw.1 params.promptId
        return ⟨kw.1, v, .weightDistribution, some kw.2⟩
      else
        match prompt.variants.find? (fun p => p.2.default = some true) with
        | none => .error s!"No default variant found for prompt {params.promptId}"
        | some (k, v) => .ok ⟨k, v, .default, none⟩

/-! ## Provider errors and the fallback executor
(`src/errors.ts`, `src/utils/fallbackExecutor.ts`) -/

inductive FallbackReason where
  | providerError
  | timeout
  | rateLimit
deriving Repr, DecidableEq

/-- `ProviderError` (`src/errors.ts`). -/
structure ProviderError where
  reason : FallbackReason
  message : String := ""
  retryable : Bool := false
  code : Option String := none
  httpStatus : Option Nat := none
deriving Repr, DecidableEq

/-- A thrown JS value as classified by `err instanceof ProviderError`:
a `ProviderError`, a plain engine-thrown `Error` (message only), or any
other value of the caller's error type `ε`. -/
inductive Thrown (ε : Type) where
  | providerErr (e : ProviderError)
  | jsError (msg : String)
  | other (e : ε)
deriving Repr, DecidableEq

structure ExecutionTarget where
  providerId : String
  providerType : String
  model : String
deriving Repr, DecidableEq

/-- `FallbackCallbackContext` — one `onAttempt` invocation. -/
structure FallbackCallbackContext where
  target : ExecutionTarget
  error : Option ProviderError := none
deriving Repr, DecidableEq

/-- Outcome of `executeWithFallback`, together with the list of targets on
which `attempt` was invoked (in order) and the list of `onAttempt`
invocations (in order). -/
structure ExecResult (ε T : Type) where
  result : Except (Thrown ε) T
  attempts : List ExecutionTarget
  callbacks : List FallbackCallbackContext
deriving Repr

/-- The `for (const target of targets)` loop of `executeWithFallback`,
carrying `lastError`.  `getProvider` runs outside the `try`, so its failure
aborts the loop without an `onAttempt` call and without invoking `attempt`. -/
def executeWithFallbackGo (attempt : π → ExecutionTarget → Except (Thrown ε) T)
    (getProvider : String → Except (Thrown ε) π)
    (lastError : Option ProviderError) :
    List ExecutionTarget → ExecResult ε T
  | [] =>
    ⟨match lastError with
     | some e => .error (.providerErr e)
     | none => .error (.jsError "Execution failed and no provider error captured."),
     [], []⟩
  | t :: rest =>
    match getProvider t.providerType with
    | .error e => ⟨.error e, [], []⟩
    | .ok provider =>
      match attempt provider t with
      | .ok r => ⟨.ok r, [t], [⟨t, none⟩]⟩
      | .error (.providerErr e) =>
        if e.retryable = false then
          ⟨.error (.providerErr e), [t], [⟨t, some e⟩]⟩
        else
          let res := executeWithFallbackGo attempt getProvider (some e) rest
          ⟨res.result, t :: res.attempts, ⟨t, some e⟩ :: res.callbacks⟩
      | .error err => ⟨.error err, [t], []⟩

/-- `executeWithFallback` (`src/utils/fallbackExecutor.ts`). -/
def executeWithFallback (targets : List ExecutionTarget)
    (attempt : π → ExecutionTarget → Except (Thrown ε) T)
    (getProvider : String → Except (Thrown ε) π) : ExecResult ε T :=
  executeWithFallbackGo attempt getProvider none targets

/-! ## Parameter mapping
(`src/providers/providerCapabilities.ts`, `src/utils/normalizeParameters.ts`) -/

/-- A `MappingRule`: either `{param, min?, max?, scale?}` or the literal
`false` (parameter unsupported for that provider). -/
inductive MappingRule where
  | rule (param : String) (lo hi : Option ℚ) (scale : Option (ℚ → ℚ))
  | unsupported

/-- The static `ProviderCapabilities` table, keyed by canonical parameter
name, then by provider type. -/
def ProviderCapabilities : List (String × List (String × MappingRule)) :=
  [("temperature",
    [("openai", .rule "temperature" (some 0) (some 2) (some (fun v => v * 2))),
     ("anthropic", .rule "temperature" (some 0) (some 1) none),
     ("google", .rule "temperature" (some 0) (some 2) (some (fun v => v * 2)))]),
   ("max_tokens",
    [("openai", .rule "max_completion_tokens" none none none),
     ("anthropic", .rule "max_tokens" none none none),
     ("google", .rule "maxOutputTokens" none none none)]),
   ("top_p",
    [("openai", .rule "top_p" none none none),
     ("anthropic", .rule "top_p" none none none),
     ("google", .rule "topP" none none none)]),
   ("frequency_penalty",
    [("openai", .rule "frequency_penalty" (some (-2)) (some 2) none),
     ("anthropic", .unsupported),
     ("google", .rule "frequencyPenalty" (some (-2)) (some 2) none)]),
   ("presence_penalty",
    [("openai", .rule "presence_penalty" (some (-2)) (some 2) none),
     ("anthropic", .unsupported),
     ("google", .rule "presencePenalty" (some (-2)) (some 2) none)]),
   ("stop",
    [("openai", .rule "stop" none none none),
     ("anthropic", .rule "stop_sequences" none none none),
     ("google", .rule "stopSequences" none none none)]),
   ("logit_bias",
    [("openai", .rule "logit_bias" none none none),
     ("anthropic", .unsupported),
     ("google", .unsupported)])]

/-- `if (scale) v = scale(v)`: a JS numeric arrow applied to a non-number
yields `NaN` (numeric-string coercion not modelled, see `Val`). -/
def applyScale (scale : Option (ℚ → ℚ)) (v : Val) : Val :=
  match scale with
  | none => v
  | some f =>
    match v with
    | .num q => .num (f q)
    | _ => .nan

/-- `if (typeof v === 'number') { if (min !== undefined) v = Math.max(min, v);
if (max !== undefined) v = Math.min(max, v); }` — `NaN` is a JS number and
`Math.max`/`Math.min` propagate it. -/
def applyClamp (lo hi : Option ℚ) (v : Val) : Val :=
  match v with
  | .num q =>
    let q1 := match lo with
      | some m => max m q
      | none => q
    let q2 := match hi with
      | some m => min m q1
      | none => q1
    .num q2
  | .nan => .nan
  | other => other

/-- Scale, then clamp — the per-value processing of one accepted key. -/
def processParamValue (lo hi : Option ℚ) (scale : Option (ℚ → ℚ)) (v : Val) : Val :=
  applyClamp lo hi (applyScale scale v)

/-- `buildProviderParams` (`src/utils/normalizeParameters.ts`). -/
def buildProviderParams (providerType : String)
    (canonical : List (String × Val)) : List (String × Val) :=
  canonical.foldl
    (fun out kv =>
      match jsGet ProviderCapabilities kv.1 with
      | none => out
      | some provMap =>
        match jsGet provMap providerType with
        | none => out
        | some .unsupported => out
        | some (.rule param lo hi scale) =>
          jsInsert out param (processParamValue lo hi scale kv.2))
    []

/-! ## Anthropic adapter request construction (`src/providers/anthropic.ts`) -/

structure ChatMessage where
  role : Role
  content : String
deriving Repr, DecidableEq

inductive AnthropicRole where
  | user
  | assistant
deriving Repr, DecidableEq

structure AnthropicMessage where
  role : AnthropicRole
  content : String
deriving Repr, DecidableEq

/-- The body passed to `client.messages.create` by
`AnthropicProvider.chatCompletion`. -/
structure AnthropicRequest where
  model : String
  messages : List AnthropicMessage
  system : Option String := none
  max_tokens : ℚ
  temperature : Option ℚ := none
deriving Repr, DecidableEq

/-- `AnthropicProvider.transformMessages`. -/
def transformMessages (messages : List ChatMessage) :
    Option String × List AnthropicMessage :=
  let systemMessages := messages.filter (fun m => m.role == Role.system)
  let conversationMessages := messages.filter (fun m => m.role != Role.system)
  let system :=
    if systemMessages.length > 0 then
      some (String.intercalate "\n\n" (systemMessages.map (·.content)))
    else none
  let anthropicMessages := conversationMessages.map fun m =>
    AnthropicMessage.mk
      (if m.role == Role.assistant then .assistant else .user) m.content
  (system, anthropicMessages)

/-- The fields of `ChatCompletionOptions` the Anthropic adapter reads. -/
structure AnthropicCallOptions where
  model : String
  messages : List ChatMessage
  max_tokens : Option ℚ := none
  temperature : Option ℚ := none
deriving Repr, DecidableEq

/-- JS `x || d` on `number | undefined` (`0` is falsy). -/
def jsOrNum (v : Option ℚ) (dflt : ℚ) : ℚ :=
  match v with
  | none => dflt
  | some q => if q = 0 then dflt else q

/-- The request object built in `AnthropicProvider.chatCompletion`:
`{model, messages, system, max_tokens: options.max_tokens || 1024,
temperature}`. -/
def buildAnthropicRequest (options : AnthropicCallOptions) : AnthropicRequest :=
  let sm := transformMessages options.messages
  { model := options.model
    messages := sm.2
    system := sm.1
    max_tokens := jsOrNum options.max_tokens 1024
    temperature := options.temperature }

/-! ## Validation
(`src/validation/index.ts` and `src/validators/configValidator.ts`)

Both entry points run the structural JSON-Schema check (`schema.json`,
compiled with AJV) first and then a sequence of semantic checks, throwing a
`ConfigurationError` at the first failure.  The structural pass is modelled
as `structuralOk` over the typed AST: every constraint of `schema.json` not
already guaranteed by the AST's typing (identifier patterns, enumerations,
numeric bounds, `minItems`, the `json_schema ⇒ schemaRef` conditional), plus
key uniqueness, which any `JSON.parse` result has.  The external
collaborators inside the semantic checks are explicit parameters: the
LiquidJS strict-filter parser is `liquidParses : String → Bool`, and AJV's
meta-schema check is the `metaOk` bit of a `SchemaFragment`.  Loops that
throw on the first offending item are written as a guard over the whole
list when every offender maps to the same error class (per-item message
text is not modelled). -/

/-- The class of semantic check that produced an error; `schema` is the
structural stage and `typeError` a raw JS crash (reading a field of
`undefined`). -/
inductive VClass where
  | schema
  | version
  | defaults
  | responseSchemas
  | routing
  | fallbacks
  | requiredParams
  | templates
  | typeError
deriving Repr, DecidableEq

structure VErr where
  cls : VClass
  msg : String := ""
deriving Repr, DecidableEq

/-- Iterate a throwing check over a list (`for … of` with `throw`). -/
def forEachE (l : List α) (f : α → Except ε Unit) : Except ε Unit :=
  match l with
  | [] => .ok ()
  | x :: xs => do
    f x
    forEachE xs f

/-- `^[a-zA-Z0-9_-]+$` (the `$defs/id` pattern of `schema.json`). -/
def isIdString (s : String) : Bool :=
  s.length > 0 && s.data.all (fun ch => ch.isAlphanum || ch = '_' || ch = '-')

/-- Record keys are pairwise distinct (true of any `JSON.parse` result). -/
def keysNodup (m : List (String × α)) : Bool := (jsKeys m).dedup = jsKeys m

/-- One entry of `$defs/modelParams` (`additionalProperties: false`). -/
def paramEntryOk : String × Val → Bool
  | ("temperature", .num q) => decide (0 ≤ q) && decide (q ≤ 1)
  | ("max_tokens", .num q) => q.den = 1 && decide (1 ≤ q)
  | ("top_p", .num q) => decide (0 ≤ q) && decide (q ≤ 1)
  | ("frequency_penalty", .num q) => decide (-2 ≤ q) && decide (q ≤ 2)
  | ("presence_penalty", .num q) => decide (-2 ≤ q) && decide (q ≤ 2)
  | ("stop", .strList l) => l.length ≤ 4
  | ("logit_bias", .intMap m) => keysNodup m
  | _ => false

/-- `$defs/responseFormat` with its `if type = json_schema then schemaRef`. -/
def responseFormatOkS (rf : ResponseFormat) : Bool :=
  (match rf.schemaRef with
   | some r => isIdString r
   | none => true) &&
  (match rf.type with
   | .json_schema => rf.schemaRef.isSome
   | .raw_text => true)

/-- `$defs/variant`. -/
def variantOkS (v : Variant) : Bool :=
  isIdString v.provider &&
  (match v.parameters with
   | some ps => keysNodup ps && ps.all paramEntryOk
   | none => true) &&
  v.messages.length ≥ 1 &&
  (match v.responseFormat with
   | some rf => responseFormatOkS rf
   | none => true) &&
  (match v.fallback with
   | some fbs => fbs.all (fun fb => isIdString fb.provider)
   | none => true)

/-- `$defs/routingRule` (the `target` is a plain string in the schema). -/
def ruleOkS (r : RoutingRule) : Bool :=
  match r.weight with
  | some w => decide (0 ≤ w) && decide (w ≤ 100)
  | none => true

/-- `$defs/phasedRule`. -/
def phasedOkS (ph : PhasedRule) : Bool :=
  keysNodup ph.weights &&
  ph.weights.all (fun kw => isIdString kw.1 && decide (0 ≤ kw.2) && decide (kw.2 ≤ 100))

/-- `$defs/routing` (`rules` has `minItems: 1`). -/
def routingOkS (r : Routing) : Bool :=
  r.rules.length ≥ 1 && r.rules.all ruleOkS &&
  (match r.phased with
   | some ps => ps.all phasedOkS
   | none => true)

/-- `$defs/prompt` (`routing` is required). -/
def promptOkS (p : Prompt) : Bool :=
  keysNodup p.variants &&
  p.variants.all (fun kv => isIdString kv.1 && variantOkS kv.2) &&
  (match p.routing with
   | some r => routingOkS r
   | none => false)

/-- The structural JSON-Schema validation of `schema.json` over the typed
AST (the built `compiled-validator` artifact / the AJV compile in
`ConfigValidator`). -/
def structuralOk (c : Config) : Bool :=
  keysNodup c.providers &&
  c.providers.all
    (fun kv => isIdString kv.1 && ["openai", "anthropic", "google"].contains kv.2.type) &&
  (match c.responseSchemas with
   | some ss => keysNodup ss && ss.all (fun kv => isIdString kv.1)
   | none => true) &&
  keysNodup c.prompts &&
  c.prompts.all (fun kv => isIdString kv.1 && promptOkS kv.2)

/-- `SUPPORTED_SCHEMA_VERSIONS = ['1.0.0']` / `SUPPORTED_MAJOR_VERSIONS = [1]`:
both entry points accept exactly major version 1. -/
def SUPPORTED_MAJOR_VERSIONS : List Nat := [1]

/-- Split a character list on a separator character. -/
def splitOnChar (c : Char) : List Char → List (List Char)
  | [] => [[]]
  | x :: xs =>
    let r := splitOnChar c xs
    if x = c then [] :: r
    else
      match r with
      | [] => [[x]]
      | g :: gs => (x :: g) :: gs

def natOfDigits (l : List Char) : Nat :=
  l.foldl (fun n ch => n * 10 + (ch.toNat - 48)) 0

/-- `version.match(/^(\d+)\.(\d+)\.(\d+)$/)`, returning the major version. -/
def semverMajor (v : String) : Option Nat :=
  match splitOnChar '.' v.data with
  | [a, b, c] =>
    if (a.length > 0 && a.all Char.isDigit) &&
       (b.length > 0 && b.all Char.isDigit) &&
       (c.length > 0 && c.all Char.isDigit) then
      some (natOfDigits a)
    else none
  | _ => none

/-- The version condition both entry points enforce: semantic format with a
supported major version. -/
def versionOkB (c : Config) : Bool :=
  match semverMajor c.version with
  | some m => SUPPORTED_MAJOR_VERSIONS.contains m
  | none => false

/-- `validateVersion` / `checkSchemaVersion` (identical behaviour in both
entry points). -/
def validateVersion (c : Config) : Except VErr Unit :=
  match semverMajor c.version with
  | none => .error ⟨.version, "Invalid version format"⟩
  | some major =>
    if SUPPORTED_MAJOR_VERSIONS.contains major then .ok ()
    else .error ⟨.version, "Unsupported major version"⟩

def defaultVariantsOf (p : Prompt) : List (String × Variant) :=
  p.variants.filter (fun kv => kv.2.default = some true)

/-- Exactly one default variant per prompt. -/
def defaultsOkB (c : Config) : Bool :=
  c.prompts.all (fun kv => (defaultVariantsOf kv.2).length = 1)

/-- `validateDefaultVariants` (0 or ≥2 defaults both throw). -/
def validateDefaultVariants (c : Config) : Except VErr Unit :=
  if defaultsOkB c then .ok ()
  else .error ⟨.defaults, "must have exactly one variant with default: true"⟩

/-- Every schema fragment passes the (external) AJV meta-schema check. -/
def fragsOkB (c : Config) : Bool :=
  match c.responseSchemas with
  | some ss => ss.all (fun kv => kv.2.metaOk)
  | none => true

/-- Every `json_schema` variant has a non-falsy `schemaRef` that resolves
into `responseSchemas`. -/
def refsOkB (c : Config) : Bool :=
  c.prompts.all fun pkv => pkv.2.variants.all fun vkv =>
    match vkv.2.responseFormat with
    | some rf =>
      match rf.type with
      | .json_schema =>
        match rf.schemaRef with
        | none => false
        | some ref => ref ≠ "" && (jsGet (c.responseSchemas.getD []) ref).isSome
      | .raw_text => true
    | none => true

/-- `ConfigValidator.validateResponseSchemas`: the fragment loop throws
first, then the reference loop. -/
def validateResponseSchemas (c : Config) : Except VErr Unit :=
  if fragsOkB c = false then .error ⟨.responseSchemas, "Invalid JSON Schema"⟩
  else if refsOkB c then .ok ()
  else .error ⟨.responseSchemas, "Schema reference not found"⟩

/-- The routing conditions `validateRoutingConfiguration` enforces for one
prompt: rule targets and phased weight keys exist, and both weight
distributions are non-degenerate. -/
def routingPromptOkB (p : Prompt) : Bool :=
  match p.routing with
  | none => false
  | some routing =>
    let variantIds := jsKeys p.variants
    routing.rules.all (fun r => variantIds.contains r.target) &&
    routing.rules.any (fun r => ruleWeight r > 0) &&
    (routing.phased.getD []).all (fun ph =>
      ph.weights.all (fun kw => variantIds.contains kw.1) &&
      (ph.weights.map (·.2)).any (fun w => w > 0))

/-- The per-prompt body of `ConfigValidator.validateRoutingConfiguration`
(a prompt without `routing` would crash reading `.rules` of `undefined`). -/
def validateRoutingPrompt (p : Prompt) : Except VErr Unit :=
  match p.routing with
  | none => .error ⟨.typeError, "cannot read rules of undefined"⟩
  | some routing =>
    let variantIds := jsKeys p.variants
    if (routing.rules.all (fun r => variantIds.contains r.target)) = false then
      .error ⟨.routing, "targets non-existent variant"⟩
    else if (routing.rules.any (fun r => ruleWeight r > 0)) = false then
      .error ⟨.routing, "all routing rules with weight 0"⟩
    else
      forEachE (routing.phased.getD []) fun ph =>
        if (ph.weights.all (fun kw => variantIds.contains kw.1)) = false then
          .error ⟨.routing, "weight for non-existent variant"⟩
        else if ((ph.weights.map (·.2)).any (fun w => w > 0)) = false then
          .error ⟨.routing, "all weights set to 0"⟩
        else .ok ()

/-- `ConfigValidator.validateRoutingConfiguration`. -/
def validateRoutingConfiguration (c : Config) : Except VErr Unit :=
  forEachE c.prompts fun pkv => validateRoutingPrompt pkv.2

/-- Every fallback target's provider is declared. -/
def fallbacksOkB (c : Config) : Bool :=
  c.prompts.all fun pkv => pkv.2.variants.all fun vkv =>
    (vkv.2.fallback.getD []).all (fun fb => (jsKeys c.providers).contains fb.provider)

/-- `ConfigValidator.validateFallbackTargets`. -/
def validateFallbackTargets (c : Config) : Except VErr Unit :=
  if fallbacksOkB c then .ok ()
  else .error ⟨.fallbacks, "references non-existent provider"⟩

/-- The hard-coded required-parameter table (both entry points). -/
def REQUIRED : List (String × List String) :=
  [("openai", []), ("anthropic", ["max_tokens"]), ("google", [])]

/-- A variant's required parameters are present (given its provider's
declared type). -/
def requiredParamsPresentB (v : Variant) (provider : ProviderConfig) : Bool :=
  ((jsGet REQUIRED provider.type).getD []).all
    (fun k => (jsKeys (v.parameters.getD [])).contains k)

/-- Per-variant condition of the strict check (undeclared provider fails). -/
def requiredVariantStrictOkB (c : Config) (v : Variant) : Bool :=
  match jsGet c.providers v.provider with
  | none => false
  | some provider => requiredParamsPresentB v provider

/-- Per-variant condition of the lenient check (undeclared provider is
skipped). -/
def requiredVariantLenientOkB (c : Config) (v : Variant) : Bool :=
  match jsGet c.providers v.provider with
  | none => true
  | some provider => requiredParamsPresentB v provider

/-- Per-variant body of `validateRequiredParameters` in
`src/validation/index.ts`. -/
def validateRequiredVariantStrict (c : Config) (v : Variant) : Except VErr Unit :=
  match jsGet c.providers v.provider with
  | none => .error ⟨.requiredParams, "references non-existent provider"⟩
  | some provider =>
    if requiredParamsPresentB v provider then .ok ()
    else .error ⟨.requiredParams, "missing required parameter(s)"⟩

/-- Per-variant body of `ConfigValidator.validateRequiredParameters`
(`if (!provider) continue`). -/
def validateRequiredVariantLenient (c : Config) (v : Variant) : Except VErr Unit :=
  match jsGet c.providers v.provider with
  | none => .ok ()
  | some provider =>
    if requiredParamsPresentB v provider then .ok ()
    else .error ⟨.requiredParams, "missing required parameter(s)"⟩

/-- `validateRequiredParameters` of `src/validation/index.ts`. -/
def validateRequiredParametersStrict (c : Config) : Except VErr Unit :=
  forEachE c.prompts fun pkv => forEachE pkv.2.variants fun vkv =>
    validateRequiredVariantStrict c vkv.2

/-- `ConfigValidator.validateRequiredParameters`. -/
def validateRequiredParametersLenient (c : Config) : Except VErr Unit :=
  forEachE c.prompts fun pkv => forEachE pkv.2.variants fun vkv =>
    validateRequiredVariantLenient c vkv.2

/-- A message's template is empty (skipped as falsy) or parses under strict
filters. -/
def templateMsgOkB (liquidParses : String → Bool) (m : Message) : Bool :=
  m.content.template = "" || liquidParses m.content.template

/-- Per-message body of `validateTemplates`. -/
def validateTemplateMessage (liquidParses : String → Bool) (m : Message) :
    Except VErr Unit :=
  if m.content.template = "" then .ok ()
  else if liquidParses m.content.template then .ok ()
  else .error ⟨.templates, "Template syntax error"⟩

/-- `validateTemplates` of `src/validation/index.ts`: every non-empty
template must parse under strict filters (an empty template is falsy under
`if (message.content?.template)` and is skipped). -/
def validateTemplates (liquidParses : String → Bool) (c : Config) :
    Except VErr Unit :=
  forEachE c.prompts fun pkv => forEachE pkv.2.variants fun vkv =>
    forEachE vkv.2.messages fun m => validateTemplateMessage liquidParses m

/-- `validateConfig` (`src/validation/index.ts`): structural stage, then
version → default-variants → required-parameters → templates. -/
def validateConfig (liquidParses : String → Bool) (c : Config) :
    Except VErr Config := do
  if structuralOk c = false then
    Except.error ⟨.schema, "Configuration validation failed"⟩
  else do
    validateVersion c
    validateDefaultVariants c
    validateRequiredParametersStrict c
    validateTemplates liquidParses c
    return c

/-- The in-memory pipeline of `ConfigValidator.validateAndLoadConfigFile`
(file read and JSON parse are outside the embedding): structural stage, then
version → default-variants → response-schemas → routing → fallbacks →
required-parameters.  No template check runs on this path. -/
def validateAndLoadConfigFile (c : Config) : Except VErr Config := do
  if structuralOk c = false then
    Except.error ⟨.schema, "Configuration validation failed"⟩
  else do
    validateVersion c
    validateDefaultVariants c
    validateResponseSchemas c
    validateRoutingConfiguration c
    validateFallbackTargets c
    validateRequiredParametersLenient c
    return c

/-! ## Telemetry builder and `chatCompletion`
(`src/observability/builder.ts` = `src/utils/observabilityBuilder.ts`,
`src/Promptuna.ts`)

Fields of the observability event that are functions of the ambient
environment only — `requestId` (fresh UUID), `timestamp` (wall clock),
`sdkVersion`, `environment`, and the monotonic-clock `timings` — are not
carried; no claim mentions them.  The sink callback
(`onObservability`) may throw: it is modelled as `ObsEvent → Option CCErr`,
`none` meaning a normal return.  "Emitted" means the sink was invoked with
the event; the returned event log lists sink invocations in order. -/

structure TokenUsage where
  prompt : ℚ := 0
  completion : ℚ := 0
  total : ℚ := 0
deriving Repr, DecidableEq

structure FallbackAttempt where
  provider : String
  model : String
  reason : FallbackReason
deriving Repr, DecidableEq

structure ExperimentContext where
  tags : List String
  weightedSelection : Bool
  selectedWeight : ℚ
deriving Repr, DecidableEq

/-- Everything `chatCompletion` can throw (or rethrow). -/
inductive CCErr where
  | configurationError (msg : String)
  | executionError (msg : String)
  | templateError (msg : String)
  | providerErr (e : ProviderError)
  | jsError (msg : String)
  | sinkError (msg : String)
deriving Repr, DecidableEq

def errConstructorName : CCErr → String
  | .configurationError _ => "ConfigurationError"
  | .executionError _ => "ExecutionError"
  | .templateError _ => "TemplateError"
  | .providerErr _ => "ProviderError"
  | .jsError _ => "Error"
  | .sinkError _ => "Error"

def errMessage : CCErr → String
  | .configurationError m => m
  | .executionError m => m
  | .templateError m => m
  | .providerErr e => e.message
  | .jsError m => m
  | .sinkError m => m

/-- `!!error?.retryable`. -/
def errRetryable : CCErr → Bool
  | .providerErr e => e.retryable
  | _ => false

structure ObsErrorInfo where
  type : String
  message : String := ""
  retryable : Bool := false
deriving Repr, DecidableEq

/-- `PromptunaObservability` (dynamic fields). -/
structure ObsEvent where
  promptId : String
  userId : Option String := none
  variantId : String
  routingReason : Reason
  routingTags : Option (List String) := none
  experimentContext : Option ExperimentContext := none
  provider : String
  model : String
  providerRequestId : Option String := none
  tokenUsage : Option TokenUsage := none
  fallbackUsed : Bool
  fallbacks : Option (List FallbackAttempt) := none
  success : Bool
  error : Option ObsErrorInfo := none
deriving Repr, DecidableEq

/-- Mutable state of an `ObservabilityBuilder`. -/
structure ObsBuilderState where
  promptId : String
  userId : Option String := none
  variantId : String := "unknown"
  routingReason : Reason := .default
  routingTags : Option (List String) := none
  experimentContext : Option ExperimentContext := none
  provider : Option String := none
  model : Option String := none
  providerRequestId : Option String := none
  tokenUsage : Option TokenUsage := none
  fallbacks : List FallbackAttempt := []
deriving Repr, DecidableEq

/-- The event object constructed by `ObservabilityBuilder.buildSuccess`. -/
def buildSuccessEvent (st : ObsBuilderState) : ObsEvent :=
  { promptId := st.promptId
    userId := st.userId
    variantId := st.variantId
    routingReason := st.routingReason
    routingTags := st.routingTags
    experimentContext := st.experimentContext
    provider := st.provider.getD "unknown"
    model := st.model.getD "unknown"
    providerRequestId := st.providerRequestId
    tokenUsage := st.tokenUsage
    fallbackUsed := st.fallbacks.length > 0
    fallbacks := if st.fallbacks.length > 0 then some st.fallbacks else none
    success := true
    error := none }

/-- The event object constructed by `ObservabilityBuilder.buildError`
(note: no `tokenUsage` field on this path). -/
def buildErrorEvent (st : ObsBuilderState) (err : CCErr) : ObsEvent :=
  { promptId := st.promptId
    userId := st.userId
    variantId := st.variantId
    routingReason := st.routingReason
    routingTags := st.routingTags
    experimentContext := st.experimentContext
    provider := st.provider.getD "unknown"
    model := st.model.getD "unknown"
    providerRequestId := st.providerRequestId
    tokenUsage := none
    fallbackUsed := st.fallbacks.length > 0
    fallbacks := if st.fallbacks.length > 0 then some st.fallbacks else none
    success := false
    error := some ⟨errConstructorName err, errMessage err, errRetryable err⟩ }

/-- The observability sink: invoked with the event, possibly throwing. -/
def ObsSink : Type := ObsEvent → Option CCErr

/-- `this.emit?.(event)`: the list of sink invocations (empty when no sink
is configured) and the value the sink threw, if any. -/
def emitEvent (sink : Option ObsSink) (ev : ObsEvent) :
    List ObsEvent × Option CCErr :=
  match sink with
  | none => ([], none)
  | some f => ([ev], f ev)

/-- Provider-reported usage (`response.usage`). -/
structure Usage where
  prompt_tokens : Option ℚ := none
  completion_tokens : Option ℚ := none
  total_tokens : Option ℚ := none
deriving Repr, DecidableEq

/-- The fields of the normalised `ChatCompletionResponse` that
`chatCompletion` reads (`id`, `usage`); `choices` passes through opaquely. -/
structure ChatCompletionResponse where
  id : String
  model : String
  usage : Option Usage := none
deriving Repr, DecidableEq

/-- `ObservabilityBuilder.setTokenUsage`. -/
def setTokenUsageOf (raw : Option Usage) (st : ObsBuilderState) :
    ObsBuilderState :=
  match raw with
  | none => st
  | some u =>
    { st with
      tokenUsage :=
        some ⟨u.prompt_tokens.getD 0, u.completion_tokens.getD 0, u.total_tokens.getD 0⟩ }

/-- The options object passed to `provider.chatCompletion` per attempt. -/
structure CCOptions where
  messages : List ChatMessage
  model : String
  userId : Option String := none
  responseFormat : Option ResponseFormat := none
  responseSchema : Option SchemaFragment := none
  params : List (String × Val) := []
deriving Repr

/-- `ChatCompletionParams`. -/
structure CCParams where
  promptId : String
  userId : Option String := none
  tags : List String := []
  unixTime : Int
  messageHistory : List ChatMessage := []
deriving Repr

/-- The environment a `chatCompletion` call runs in: the cached-config load
outcome, the external template engine, the provider attempts (network), the
provider-instance resolver, the sink, and the `Math.random()` draw. -/
structure CCEnv where
  configResult : Except CCErr Config
  render : String → Except CCErr String
  attempt : ExecutionTarget → CCOptions → Except (Thrown CCErr) ChatCompletionResponse
  getProvider : String → Except (Thrown CCErr) Unit
  sink : Option ObsSink
  rng : ℚ

/-- The message-rendering loop of `Promptuna.getTemplate` (a message whose
`content.template` is falsy throws; rendering defers to the external
engine). -/
def renderMessages (render : String → Except CCErr String) :
    List Message → Except CCErr (List ChatMessage)
  | [] => .ok []
  | m :: ms =>
    if m.content.template = "" then
      .error (.executionError "Invalid message format in variant")
    else do
      let content ← render m.content.template
      let rest ← renderMessages render ms
      return ⟨m.role, content⟩ :: rest

/-- `Promptuna.getTemplate` (with the config already resolved). -/
def getTemplate (render : String → Except CCErr String) (config : Config)
    (promptId variantId : String) : Except CCErr (List ChatMessage) :=
  match jsGet config.prompts promptId with
  | none => .error (.executionError "Prompt not found")
  | some prompt =>
    match jsGet prompt.variants variantId with
    | none => .error (.executionError "Variant not found")
    | some variant => renderMessages render variant.messages

/-- Enrich `[primary, ...fallbacks]` with concrete provider types, throwing
`ExecutionError` on a provider id not declared in `config.providers`. -/
def enrichTargets (config : Config) :
    List (String × String) → Except CCErr (List ExecutionTarget)
  | [] => .ok []
  | (pid, mdl) :: rest =>
    match jsGet config.providers pid with
    | none => .error (.executionError "Provider configuration not found")
    | some cfg => do
      let ts ← enrichTargets config rest
      return ⟨pid, cfg.type, mdl⟩ :: ts

/-- Fold the `onAttempt` invocations of the fallback executor into the
builder state (`addFallbackAttempt` on failures, `setProvider` on the
success). -/
def applyCallbacks (st : ObsBuilderState)
    (callbacks : List FallbackCallbackContext) : ObsBuilderState :=
  callbacks.foldl
    (fun st ctx =>
      match ctx.error with
      | some err =>
        { st with
          fallbacks := st.fallbacks ++ [⟨ctx.target.providerType, ctx.target.model, err.reason⟩] }
      | none =>
        { st with provider := some ctx.target.providerType, model := some ctx.target.model })
    st

/-- The `try` block of `Promptuna.chatCompletion`: outcome plus the builder
state as mutated up to the point of return or throw. -/
def chatCompletionTry (env : CCEnv) (params : CCParams)
    (st0 : ObsBuilderState) :
    Except CCErr ChatCompletionResponse × ObsBuilderState :=
  match env.configResult with
  | .error e => (.error e, st0)
  | .ok config =>
    match jsGet config.prompts params.promptId with
    | none => (.error (.executionError "Prompt not found"), st0)
    | some prompt =>
      match selectVariant env.rng
          ⟨prompt, params.promptId, params.userId, params.tags, params.unixTime⟩ with
      | .error msg => (.error (.jsError msg), st0)
      | .ok sel =>
        let st1 :=
          { st0 with
            variantId := sel.variantId
            routingReason := sel.reason
            routingTags := if params.tags.length > 0 then some params.tags else none
            experimentContext :=
              match sel.weightPicked with
              | some w => some ⟨params.tags, true, w⟩
              | none => st0.experimentContext }
        match getTemplate env.render config params.promptId sel.variantId with
        | .error e => (.error e, st1)
        | .ok messages =>
          let basicTargets :=
            (sel.variant.provider, sel.variant.model) ::
              (sel.variant.fallback.getD []).map (fun fb => (fb.provider, fb.model))
          match enrichTargets config basicTargets with
          | .error e => (.error e, st1)
          | .ok targets =>
            let chatMessages := params.messageHistory ++ messages
            let responseSchema :=
              match sel.variant.responseFormat with
              | some rf =>
                match rf.type with
                | .json_schema => rf.schemaRef.bind (jsGet (config.responseSchemas.getD []))
                | .raw_text => none
              | none => none
            let mkOptions := fun (t : ExecutionTarget) =>
              { messages := chatMessages
                model := t.model
                userId := params.userId
                responseFormat := sel.variant.responseFormat
                responseSchema := responseSchema
                params := buildProviderParams t.providerType (sel.variant.parameters.getD [])
                : CCOptions }
            let execRes :=
              executeWithFallback targets (fun (_ : Unit) t => env.attempt t (mkOptions t))
                env.getProvider
            let st2 := applyCallbacks st1 execRes.callbacks
            match execRes.result with
            | .ok resp => (.ok resp, st2)
            | .error (.providerErr e) => (.error (.providerErr e), st2)
            | .error (.jsError m) => (.error (.jsError m), st2)
            | .error (.other e) => (.error e, st2)

/-- The `catch` block of `Promptuna.chatCompletion`: `buildError` constructs
and emits the error event; a throw from the sink inside `buildError`
propagates raw, otherwise an `ExecutionError` wrapping the cause is
thrown. -/
def chatCompletionCatch (env : CCEnv) (e : CCErr) (st : ObsBuilderState)
    (evSoFar : List ObsEvent) :
    Except CCErr ChatCompletionResponse × List ObsEvent :=
  let ev2 := buildErrorEvent st e
  let emitted := emitEvent env.sink ev2
  match emitted.2 with
  | some e2 => (.error e2, evSoFar ++ emitted.1)
  | none =>
    (.error (.executionError s!"Chat completion failed: {errMessage e}"),
     evSoFar ++ emitted.1)

/-- `Promptuna.chatCompletion`: result plus the list of events passed to the
sink, in order. -/
def chatCompletion (env : CCEnv) (params : CCParams) :
    Except CCErr ChatCompletionResponse × List ObsEvent :=
  let st0 : ObsBuilderState :=
    { promptId := params.promptId, userId := params.userId
      variantId := "unknown", routingReason := .default }
  match chatCompletionTry env params st0 with
  | (.ok resp, st) =>
    let st2 := setTokenUsageOf resp.usage { st with providerRequestId := some resp.id }
    let ev := buildSuccessEvent st2
    let emitted := emitEvent env.sink ev
    match emitted.2 with
    | none => (.ok resp, emitted.1)
    | some e => chatCompletionCatch env e st2 emitted.1
  | (.error e, st) => chatCompletionCatch env e st []

/-! ## Specification-side predicates

Whole-config forms of the per-class conditions, and the first-failing-class
functions the sequencing theorems compare the validators against. -/

def schemasOkB (c : Config) : Bool := fragsOkB c && refsOkB c

def routingOkB (c : Config) : Bool := c.prompts.all (fun kv => routingPromptOkB kv.2)

/-- Class-6 condition as `src/validation/index.ts` enforces it. -/
def requiredStrictOkB (c : Config) : Bool :=
  c.prompts.all fun pkv => pkv.2.variants.all fun vkv =>
    requiredVariantStrictOkB c vkv.2

/-- Class-6 condition as `ConfigValidator` enforces it. -/
def requiredLenientOkB (c : Config) : Bool :=
  c.prompts.all fun pkv => pkv.2.variants.all fun vkv =>
    requiredVariantLenientOkB c vkv.2

/-- Class-7 condition: every non-empty template parses (strict filters). -/
def templatesOkB (liquidParses : String → Bool) (c : Config) : Bool :=
  c.prompts.all fun pkv => pkv.2.variants.all fun vkv =>
    vkv.2.messages.all (templateMsgOkB liquidParses)

/-- The error class of a validation outcome (`none` = accepted). -/
def resultClass : Except VErr Config → Option VClass
  | .ok _ => none
  | .error e => some e.cls

/-- The first failing class along `validateConfig`'s actual sequence. -/
def firstFailA (liquidParses : String → Bool) (c : Config) : Option VClass :=
  if structuralOk c = false then some .schema
  else if versionOkB c = false then some .version
  else if defaultsOkB c = false then some .defaults
  else if requiredStrictOkB c = false then some .requiredParams
  else if templatesOkB liquidParses c = false then some .templates
  else none

/-- The first failing class along `validateAndLoadConfigFile`'s actual
sequence. -/
def firstFailB (c : Config) : Option VClass :=
  if structuralOk c = false then some .schema
  else if versionOkB c = false then some .version
  else if defaultsOkB c = false then some .defaults
  else if schemasOkB c = false then some .responseSchemas
  else if routingOkB c = false then some .routing
  else if fallbacksOkB c = false then some .fallbacks
  else if requiredLenientOkB c = false then some .requiredParams
  else none

/-- Closure of routing references (rule targets and phased weight keys). -/
def RoutingClosed (c : Config) : Prop :=
  ∀ pp ∈ c.prompts, ∀ routing, pp.2.routing = some routing →
    (∀ r ∈ routing.rules, r.target ∈ jsKeys pp.2.variants) ∧
    (∀ ph ∈ routing.phased.getD [], ∀ kw ∈ ph.weights, kw.1 ∈ jsKeys pp.2.variants)

/-- Closure of fallback provider references. -/
def FallbacksClosed (c : Config) : Prop :=
  ∀ pp ∈ c.prompts, ∀ vv ∈ pp.2.variants,
    ∀ fb ∈ vv.2.fallback.getD [], fb.provider ∈ jsKeys c.providers

/-- Closure of `json_schema` response-schema references. -/
def SchemaRefsClosed (c : Config) : Prop :=
  ∀ pp ∈ c.prompts, ∀ vv ∈ pp.2.variants,
    ∀ rf, vv.2.responseFormat = some rf → rf.type = .json_schema →
      ∃ ref, rf.schemaRef = some ref ∧ (jsGet (c.responseSchemas.getD []) ref).isSome

/-! ## Concrete fixtures for witnesses and counterexamples -/

/-- A minimal default variant. -/
def variantV : Variant :=
  { provider := "openai", model := "gpt-4", default := some true
    messages := [⟨.user, ⟨"hello"⟩⟩] }

/-- Prompt whose only (untagged) routing rule has weight 0 — the C1 input. -/
def promptZeroWeight : Prompt :=
  { variants := [("v_def", variantV)]
    routing := some { rules := [{ target := "v_def", weight := some 0 }] } }

/-- Prompt with one matching tag rule — the C1 witness input. -/
def promptTagged : Prompt :=
  { variants := [("v_def", variantV)]
    routing := some { rules := [{ target := "v_def", weight := some 70, tags := some ["US"] }] } }

/-- Prompt with a plain weight-100 rule — the C3 input. -/
def promptPlain : Prompt :=
  { variants := [("v", variantV)]
    routing := some { rules := [{ target := "v" }] } }

/-- The C3 environment: config loads, template renders, the provider
succeeds, and the sink throws exactly on success events. -/
def envSinkThrows : CCEnv :=
  { configResult := .ok
      { version := "1.0.0"
        providers := [("openai", ⟨"openai"⟩)]
        prompts := [("p", promptPlain)] }
    render := fun s => .ok s
    attempt := fun _ _ => .ok ⟨"resp-1", "gpt-4", none⟩
    getProvider := fun _ => .ok ()
    sink := some (fun ev => if ev.success then some (.sinkError "sink boom") else none)
    rng := 0 }

/-- Config with a routing rule targeting a non-existent variant — passes the
structural schema (rule targets are plain strings there) and every check
`validateConfig` actually runs. -/
def cfgDanglingTarget : Config :=
  { version := "1.0.0"
    providers := [("openai", ⟨"openai"⟩)]
    prompts := [("p",
      { variants := [("v", variantV)]
        routing := some { rules := [{ target := "ghost", weight := some 100 }] } })] }

/-- A variant whose `json_schema` response format references a schema id
that is never defined. -/
def variantDanglingRef : Variant :=
  { variantV with responseFormat := some ⟨.json_schema, some "nope"⟩ }

def promptDanglingRef : Prompt :=
  { variants := [("v", variantDanglingRef)]
    routing := some { rules := [{ target := "v" }] } }

/-- Config with a `json_schema` variant whose `schemaRef` resolves to
nothing — also accepted by `validateConfig`. -/
def cfgDanglingSchemaRef : Config :=
  { version := "1.0.0"
    providers := [("openai", ⟨"openai"⟩)]
    prompts := [("p", promptDanglingRef)] }

/-- A fully well-formed config exercising routing, phased rules, fallbacks
and schema references — accepted by both validators. -/
def cfgGood : Config :=
  { version := "1.0.0"
    providers := [("openai", ⟨"openai"⟩), ("openai2", ⟨"openai"⟩)]
    responseSchemas := some [("s1", ⟨true⟩)]
    prompts := [("p",
      { variants := [("v",
          { provider := "openai", model := "gpt-4", default := some true
            messages := [⟨.user, ⟨"hello"⟩⟩]
            responseFormat := some ⟨.json_schema, some "s1"⟩
            fallback := some [⟨"openai2", "gpt-4o"⟩] })]
        routing := some
          { rules := [{ target := "v" }]
            phased := some [{ start := 0, «end» := some 10, weights := [("v", 50)] }] } })] }

/-- Targets for the fallback-executor witnesses. -/
def targetA : ExecutionTarget := ⟨"openai", "openai", "gpt-4"⟩
def targetB : ExecutionTarget := ⟨"anthropic", "anthropic", "claude-sonnet-4"⟩

/-- A retryable rate-limit error and a non-retryable provider error. -/
def errRate : ProviderError := { reason := .rateLimit, message := "429", retryable := true }
def errFatal : ProviderError := { reason := .providerError, message := "401", retryable := false }
def errTimeout : ProviderError := { reason := .timeout, message := "504", retryable := true }

/-- Per-target retryable errors for the C6 witness. -/
def errOf : ExecutionTarget → ProviderError :=
  fun t => if t.providerId = "openai" then errRate else errTimeout

/-- An attempt function that always raises the target's retryable error. -/
def attemptAllFail : Unit → ExecutionTarget → Except (Thrown Unit) Unit :=
  fun _ t => .error (.providerErr (errOf t))

/-- An attempt function that raises a non-retryable `ProviderError`. -/
def attemptFatal : Unit → ExecutionTarget → Except (Thrown Unit) Unit :=
  fun _ _ => .error (.providerErr errFatal)

/-- An attempt function that throws a plain (non-`ProviderError`) value. -/
def attemptCrash : Unit → ExecutionTarget → Except (Thrown Unit) Unit :=
  fun _ _ => .error (.jsError "boom")

/-- A provider resolver that always succeeds. -/
def getProviderOk : String → Except (Thrown Unit) Unit := fun _ => .ok ()

def provOf : String → Unit := fun _ => ()

/-- The canonical parameter bag of C8's concrete scenario. -/
def canonicalBag : List (String × Val) :=
  [("temperature", .num 0.5), ("max_tokens", .num 100), ("frequency_penalty", .num 0.1)]

/-! ## Theorems for the claims -/

/-- FIPS 180-4 test vector: first word of `SHA-256("abc")`, validating the
SHA-256 embedding. -/
theorem sha256_fips_test_vector : sha256First32 "abc" = 0xba7816bf := by decide

/-- **C8** (confirmed).  `buildProviderParams` on the canonical bag
`{temperature: 0.5, max_tokens: 100, frequency_penalty: 0.1}` yields
`{temperature: 0.5, max_tokens: 100}` for Anthropic, `{temperature: 1.0,
max_completion_tokens: 100, frequency_penalty: 0.1}` for OpenAI and
`{temperature: 1.0, maxOutputTokens: 100, frequencyPenalty: 0.1}` for
Google; in general an unknown canonical key is dropped silently and an
accepted key is scaled, then clamped (numbers only), then written under the
mapped name. -/
theorem C8_parameter_mapping :
    (buildProviderParams "anthropic" canonicalBag
        = [("temperature", .num 0.5), ("max_tokens", .num 100)]) ∧
    (buildProviderParams "openai" canonicalBag
        = [("temperature", .num 1), ("max_completion_tokens", .num 100),
           ("frequency_penalty", .num 0.1)]) ∧
    (buildProviderParams "google" canonicalBag
        = [("temperature", .num 1), ("maxOutputTokens", .num 100),
           ("frequencyPenalty", .num 0.1)]) ∧
    (∀ (pt k : String) (v : Val) (bag₁ bag₂ : List (String × Val)),
      jsGet ProviderCapabilities k = none →
      buildProviderParams pt (bag₁ ++ (k, v) :: bag₂)
        = buildProviderParams pt (bag₁ ++ bag₂)) ∧
    (∀ (pt k : String) (v : Val) (pm : List (String × MappingRule))
       (param : String) (lo hi : Option ℚ) (scale : Option (ℚ → ℚ))
       (bag : List (String × Val)),
      jsGet ProviderCapabilities k = some pm →
      jsGet pm pt = some (.rule param lo hi scale) →
      buildProviderParams pt (bag ++ [(k, v)])
        = jsInsert (buildProviderParams pt bag) param
            (processParamValue lo hi scale v)) := by
  refine ⟨by with_unfolding_all decide, by with_unfolding_all decide,
    by with_unfolding_all decide, ?_, ?_⟩
  · intro pt k v bag₁ bag₂ h
    simp only [buildProviderParams, List.foldl_append, List.foldl_cons, h]
  · intro pt k v pm param lo hi scale bag h1 h2
    simp only [buildProviderParams, List.foldl_append, List.foldl_cons,
      List.foldl_nil, h1, h2]

/-- Witness for C8: the two general conjuncts applied at concrete inputs. -/
theorem C8_parameter_mapping_witness :
    buildProviderParams "openai" [("not_a_param", Val.num 3)]
        = buildProviderParams "openai" [] ∧
    buildProviderParams "openai" [("temperature", Val.num 3)]
        = jsInsert (buildProviderParams "openai" []) "temperature"
            (processParamValue (some 0) (some 2) (some fun v => v * 2) (Val.num 3)) :=
  ⟨C8_parameter_mapping.2.2.2.1 "openai" "not_a_param" (Val.num 3) [] [] rfl,
   C8_parameter_mapping.2.2.2.2 "openai" "temperature" (Val.num 3) _
     "temperature" (some 0) (some 2) (some fun v => v * 2) [] rfl rfl⟩

/-- **C9** (confirmed).  The Anthropic request carries
`max_tokens = options.max_tokens || 1024`: absent or zero becomes 1024, any
non-zero value passes through unchanged. -/
theorem C9_anthropic_max_tokens (o : AnthropicCallOptions) :
    ((o.max_tokens = none ∨ o.max_tokens = some 0) →
      (buildAnthropicRequest o).max_tokens = 1024) ∧
    (∀ q : ℚ, q ≠ 0 → o.max_tokens = some q →
      (buildAnthropicRequest o).max_tokens = q) := by
  constructor
  · rintro (h | h) <;> simp [buildAnthropicRequest, jsOrNum, h]
  · intro q hq h
    simp [buildAnthropicRequest, jsOrNum, h, hq]

/-- Witness for C9 at concrete option records. -/
theorem C9_anthropic_max_tokens_witness :
    (buildAnthropicRequest ⟨"claude-sonnet-4", [], none, none⟩).max_tokens = 1024 ∧
    (buildAnthropicRequest ⟨"claude-sonnet-4", [], some 0, none⟩).max_tokens = 1024 ∧
    (buildAnthropicRequest ⟨"claude-sonnet-4", [], some 7, none⟩).max_tokens = 7 :=
  ⟨(C9_anthropic_max_tokens _).1 (Or.inl rfl),
   (C9_anthropic_max_tokens _).1 (Or.inr rfl),
   (C9_anthropic_max_tokens _).2 7 (by norm_num) rfl⟩

/-- **C3** (code bug).  With a sink that throws on success events, a
`chatCompletion` call whose provider attempt succeeds does **not** return
the response — it throws an `ExecutionError` — and the sink is invoked
twice (first with a `success = true` event, then with a `success = false`
event), contradicting "exactly one event", "success iff returned", and
"sink failures do not affect the primary outcome": `buildSuccess` emits
inside the `try` block with no isolation, so the sink's throw lands in the
`catch` block, which emits a second event via `buildError`. -/
theorem C3_sink_throw_changes_outcome :
    (chatCompletion envSinkThrows ⟨"p", none, [], 0, []⟩).1
        = .error (.executionError "Chat completion failed: sink boom") ∧
    ((chatCompletion envSinkThrows ⟨"p", none, [], 0, []⟩).2).map (·.success)
        = [true, false] := by
  with_unfolding_all decide

/-- **C1** counterexample.  For `promptZeroWeight` (single untagged rule
with weight 0), no tag rule matches, no phased entry is active, and the
only untagged rule has weight 0, so the claim predicts reason `default`;
the code returns reason `weight-distribution` (the default-rules layer
fires on mere existence of untagged rules, ignoring their weights). -/
theorem C1_counterexample :
    (tagRulesOf [{ target := "v_def", weight := some 0 }] [] = [] ∧
     ((promptZeroWeight.routing.bind (·.phased)).getD []).filter (phaseActive 0) = [] ∧
     defaultRulesOf [{ target := "v_def", weight := some 0 }] ≠ [] ∧
     (defaultRulesOf [{ target := "v_def", weight := some 0 }]).all
       (fun r => ruleWeight r = 0)) ∧
    (selectVariant 0 ⟨promptZeroWeight, "p", none, [], 0⟩).map (·.reason)
        = .ok .weightDistribution ∧
    Reason.weightDistribution ≠ Reason.default := by
  with_unfolding_all decide

/-- **C2** counterexample.  At `userId = "alice"`, `promptId = "greeting"`,
`salt = "tag"`, the rational actually computed differs from
"first 32 bits of the SHA-256 digest divided by 2³²": the code divides by
`0xffffffff = 2³² − 1`. -/
theorem C2_counterexample :
    deterministicRandom 0 (some "alice") "greeting" "tag"
      ≠ (sha256First32 ("alice" ++ ":" ++ "greeting" ++ ":" ++ "tag") : ℚ) / 2 ^ 32 := by
  have h : sha256First32 ("alice" ++ ":" ++ "greeting" ++ ":" ++ "tag") = 717886295 := by
    decide
  simp only [deterministicRandom, jsFalsyStr, Option.getD, h]
  rw [show (decide ("alice" = "")) = false from by decide]
  norm_num

/-- **C4** counterexample.  `cfgDanglingTarget` has a routing rule whose
target names no variant (a class-4 error), yet `validateConfig` accepts it:
that entry point never runs the routing-reference class. -/
theorem C4_counterexample :
    validateConfig (fun _ => true) cfgDanglingTarget = .ok cfgDanglingTarget ∧
    routingOkB cfgDanglingTarget = false := by
  with_unfolding_all decide

/-- **C5** counterexample.  `cfgDanglingSchemaRef` is accepted by
`validateConfig` (standalone validation) although its `json_schema`
variant's `schemaRef` resolves to nothing. -/
theorem C5_counterexample :
    validateConfig (fun _ => true) cfgDanglingSchemaRef = .ok cfgDanglingSchemaRef ∧
    ¬ SchemaRefsClosed cfgDanglingSchemaRef := by
  refine ⟨by with_unfolding_all decide, ?_⟩
  intro h
  rcases h ("p", promptDanglingRef) (by with_unfolding_all decide)
      ("v", variantDanglingRef) (by with_unfolding_all decide)
      ⟨.json_schema, some "nope"⟩ rfl rfl with ⟨ref, href, hres⟩
  obtain rfl : "nope" = ref := Option.some.inj href
  simp [cfgDanglingSchemaRef, jsGet] at hres

/-- The fallback loop under all-retryable failures: every target is
attempted in order, `onAttempt` fires once per target with its error, and
the final outcome is the last target's error (regardless of any previous
`lastError`). -/
theorem executeWithFallbackGo_retryable
    (attempt : π → ExecutionTarget → Except (Thrown ε) T)
    (getProvider : String → Except (Thrown ε) π) (prov : String → π)
    (err : ExecutionTarget → ProviderError) :
    ∀ (targets : List ExecutionTarget) (hne : targets ≠ [])
      (le : Option ProviderError),
    (∀ t ∈ targets, getProvider t.providerType = .ok (prov t.providerType)) →
    (∀ t ∈ targets, attempt (prov t.providerType) t = .error (.providerErr (err t))) →
    (∀ t ∈ targets, (err t).retryable = true) →
    executeWithFallbackGo attempt getProvider le targets
      = ⟨.error (.providerErr (err (targets.getLast hne))), targets,
         targets.map (fun t => ⟨t, some (err t)⟩)⟩ := by
  intro targets
  induction targets with
  | nil => intro hne; exact absurd rfl hne
  | cons t rest ih =>
    intro _ le hgp hatt hret
    have hgp0 := hgp t (by simp)
    have hatt0 := hatt t (by simp)
    have hret0 := hret t (by simp)
    cases rest with
    | nil =>
      simp [executeWithFallbackGo, hgp0, hatt0, hret0]
    | cons r rs =>
      have ih' := ih (by simp) (some (err t))
        (fun x hx => hgp x (by simp [hx]))
        (fun x hx => hatt x (by simp [hx]))
        (fun x hx => hret x (by simp [hx]))
      rw [executeWithFallbackGo.eq_def]
      simp only [hgp0, hatt0, hret0, ih']
      simp [List.getLast_cons]

/-- **C6** (confirmed).  When every target's attempt raises a retryable
`ProviderError`, `executeWithFallback` invokes the attempt function exactly
once per target, in list order, and throws the error raised by the last
target. -/
theorem C6_fallback_exhaustion
    (targets : List ExecutionTarget) (hne : targets ≠ [])
    (attempt : π → ExecutionTarget → Except (Thrown ε) T)
    (getProvider : String → Except (Thrown ε) π) (prov : String → π)
    (err : ExecutionTarget → ProviderError)
    (hgp : ∀ t ∈ targets, getProvider t.providerType = .ok (prov t.providerType))
    (hatt : ∀ t ∈ targets, attempt (prov t.providerType) t = .error (.providerErr (err t)))
    (hret : ∀ t ∈ targets, (err t).retryable = true) :
    (executeWithFallback targets attempt getProvider).attempts = targets ∧
    (executeWithFallback targets attempt getProvider).result
      = .error (.providerErr (err (targets.getLast hne))) := by
  have h := executeWithFallbackGo_retryable attempt getProvider prov err
    targets hne none hgp hatt hret
  rw [executeWithFallback, h]
  exact ⟨rfl, rfl⟩

/-- Witness for C6: two targets, both raising retryable errors — two
attempts in order and the second target's timeout error surfaces. -/
theorem C6_fallback_exhaustion_witness :
    (executeWithFallback [targetA, targetB] attemptAllFail getProviderOk).attempts
        = [targetA, targetB] ∧
    (executeWithFallback [targetA, targetB] attemptAllFail getProviderOk).result
        = .error (.providerErr errTimeout) :=
  C6_fallback_exhaustion [targetA, targetB] (by decide) attemptAllFail
    getProviderOk provOf errOf
    (fun t _ => rfl) (fun t _ => rfl) (by decide)

/-- **C7** (confirmed).  A non-retryable `ProviderError` from the first
target is propagated after exactly one attempt (with one `onAttempt`
callback), and a thrown value that is not a `ProviderError` is rethrown
immediately after one attempt, without fallback and without a callback. -/
theorem C7_nonretryable_short_circuit
    (t0 : ExecutionTarget) (rest : List ExecutionTarget)
    (attempt : π → ExecutionTarget → Except (Thrown ε) T)
    (getProvider : String → Except (Thrown ε) π) (p : π)
    (h0 : getProvider t0.providerType = .ok p) :
    (∀ e, attempt p t0 = .error (.providerErr e) → e.retryable = false →
      executeWithFallback (t0 :: rest) attempt getProvider
        = ⟨.error (.providerErr e), [t0], [⟨t0, some e⟩]⟩) ∧
    (∀ m, attempt p t0 = .error (.jsError m) →
      executeWithFallback (t0 :: rest) attempt getProvider
        = ⟨.error (.jsError m), [t0], []⟩) ∧
    (∀ e, attempt p t0 = .error (.other e) →
      executeWithFallback (t0 :: rest) attempt getProvider
        = ⟨.error (.other e), [t0], []⟩) := by
  refine ⟨?_, ?_, ?_⟩
  · intro e ha hr
    simp [executeWithFallback, executeWithFallbackGo, h0, ha, hr]
  · intro m ha
    simp [executeWithFallback, executeWithFallbackGo, h0, ha]
  · intro e ha
    simp [executeWithFallback, executeWithFallbackGo, h0, ha]

/-- Witness for C7: a fatal 401 stops after one attempt even with a second
target available; a plain thrown value does too, with no callback. -/
theorem C7_nonretryable_short_circuit_witness :
    executeWithFallback [targetA, targetB] attemptFatal getProviderOk
      = ⟨.error (.providerErr errFatal), [targetA], [⟨targetA, some errFatal⟩]⟩ ∧
    executeWithFallback [targetA, targetB] attemptCrash getProviderOk
      = ⟨.error (.jsError "boom"), [targetA], []⟩ :=
  ⟨(C7_nonretryable_short_circuit targetA [targetB] attemptFatal getProviderOk
      () rfl).1 errFatal rfl rfl,
   (C7_nonretryable_short_circuit targetA [targetB] attemptCrash getProviderOk
      () rfl).2.1 "boom" rfl⟩

/-- Re-keying entries whose key is `k` does not affect reads of other keys. -/
theorem jsGet_map_ne {α} (k t : String) (v : α) (hne : t ≠ k) :
    ∀ ps : List (String × α),
      jsGet (ps.map fun q => if q.1 = k then (k, v) else q) t = jsGet ps t := by
  intro ps
  induction ps with
  | nil => rfl
  | cons p ps ih =>
    have hkt : ¬(k = t) := fun h => hne h.symm
    by_cases hpk : p.1 = k
    · have hpt : ¬(p.1 = t) := by rw [hpk]; exact hkt
      simpa [jsGet, List.find?_cons, hpk, hkt, hpt] using ih
    · by_cases hpt : p.1 = t
      · rw [List.map_cons, if_neg hpk]
        unfold jsGet
        rw [List.find?_cons_of_pos _ (by simp [hpt]),
          List.find?_cons_of_pos _ (by simp [hpt])]
      · simpa [jsGet, List.find?_cons, hpk, hpt] using ih

/-- JS property assignment, observed through reads: the assigned key now
yields the new value; every other key is untouched. -/
theorem jsGet_jsInsert {α} (m : List (String × α)) (k : String) (v : α)
    (t : String) :
    jsGet (jsInsert m k v) t = if t = k then some v else jsGet m t := by
  unfold jsInsert
  by_cases hex : m.any (fun p => p.1 = k) = true
  · rw [if_pos hex]
    induction m with
    | nil => simp at hex
    | cons p ps ih =>
      by_cases hpk : p.1 = k
      · by_cases htk : t = k
        · subst htk
          simp [jsGet, List.find?_cons, hpk]
        · have h1 := jsGet_map_ne k t v htk ps
          have hkt : ¬(k = t) := fun h => htk h.symm
          have hpt : ¬(p.1 = t) := by rw [hpk]; exact hkt
          simp only [htk, if_false]
          simpa [jsGet, List.find?_cons, hpk, hkt, hpt] using h1
      · have hex' : ps.any (fun p => p.1 = k) = true := by
          simp only [List.any_cons, Bool.or_eq_true, decide_eq_true_eq] at hex
          rcases hex with h | h
          · exact absurd h hpk
          · exact h
        have ih' := ih hex'
        by_cases hpt : p.1 = t
        · have htk : ¬t = k := by rw [← hpt]; exact hpk
          simp [jsGet, List.find?_cons, hpk, hpt, htk]
        · simpa [jsGet, List.find?_cons, hpk, hpt] using ih'
  · rw [if_neg hex]
    have hall : ∀ p ∈ m, ¬p.1 = k := by
      intro p hp
      by_contra hc
      exact hex (List.any_eq_true.mpr ⟨p, hp, by simp [hc]⟩)
    by_cases htk : t = k
    · subst htk
      have hnone : m.find? (fun p => decide (p.1 = t)) = none :=
        List.find?_eq_none.mpr (fun p hp => by simp [hall p hp])
      simp [jsGet, List.find?_append, hnone, List.find?_cons]
    · have hkt : ¬(k = t) := fun h => htk h.symm
      simp [jsGet, List.find?_append, List.find?_cons, htk, hkt]

/-- JS property assignment, observed through `Object.keys`: an existing key
keeps the key list unchanged, a fresh key is appended. -/
theorem jsKeys_jsInsert {α} (m : List (String × α)) (k : String) (v : α) :
    jsKeys (jsInsert m k v)
      = if m.any (fun p => p.1 = k) then jsKeys m else jsKeys m ++ [k] := by
  unfold jsInsert jsKeys
  by_cases hex : m.any (fun p => p.1 = k) = true
  · rw [if_pos hex, if_pos hex, List.map_map]
    apply List.map_congr_left
    intro p _
    by_cases hpk : p.1 = k <;> simp [hpk]
  · rw [if_neg hex, if_neg hex]
    simp

/-- The weight maps built inside `selectVariant` have pairwise-distinct
keys: a repeated target occupies a single slot. -/
theorem buildWeightMap_nodup (rules : List RoutingRule) :
    (jsKeys (buildWeightMap rules)).Nodup := by
  suffices h : ∀ (rs : List RoutingRule) (m : List (String × ℚ)),
      (jsKeys m).Nodup →
      (jsKeys (rs.foldl (fun m r => jsInsert m r.target (ruleWeight r)) m)).Nodup by
    exact h rules [] (by simp [jsKeys])
  intro rs
  induction rs with
  | nil => intro m hm; exact hm
  | cons r rs ih =>
    intro m hm
    rw [List.foldl_cons]
    apply ih
    rw [jsKeys_jsInsert]
    by_cases hex : m.any (fun p => p.1 = r.target) = true
    · rw [if_pos hex]; exact hm
    · rw [if_neg hex]
      have hnotin : r.target ∉ jsKeys m := by
        intro hmem
        rcases List.mem_map.mp hmem with ⟨p, hp, hk⟩
        exact hex (List.any_eq_true.mpr ⟨p, hp, by simp [hk]⟩)
      simp [List.nodup_append, hm, hnotin]

/-- The fold that builds a weight map, related to the *last* rule naming
each target. -/
theorem buildWeightMap_go (t : String) :
    ∀ (rules : List RoutingRule) (m : List (String × ℚ)),
      jsGet (rules.foldl (fun m r => jsInsert m r.target (ruleWeight r)) m) t
        = match rules.reverse.find? (fun r => r.target = t) with
          | some r => some (ruleWeight r)
          | none => jsGet m t := by
  intro rules
  induction rules with
  | nil => intro m; rfl
  | cons r rs ih =>
    intro m
    rw [List.foldl_cons, ih, List.reverse_cons, List.find?_append]
    cases hf : rs.reverse.find? (fun x => decide (x.target = t)) with
    | some r' => simp [hf]
    | none =>
      rw [jsGet_jsInsert]
      by_cases htr : t = r.target
      · subst htr
        simp [hf, List.find?]
      · have : (decide (r.target = t)) = false := by
          simp; exact fun h => htr h.symm
        simp [hf, List.find?, this, htr]

/-- **C10** (confirmed).  In the weight map `selectVariant` builds for a
policy layer (`for (const r of layerRules) weightMap[r.target] = r.weight ??
100`, used identically by the tag layer and the untagged default layer),
a repeated target keeps only the **last** matching rule's weight — weights
are overwritten, never summed — and the map's keys are pairwise distinct,
so the target enters the weighted pick exactly once. -/
theorem C10_weight_map_last_rule_wins (rules : List RoutingRule) (t : String) :
    jsGet (buildWeightMap rules) t
      = (rules.reverse.find? (fun r => r.target = t)).map ruleWeight ∧
    (jsKeys (buildWeightMap rules)).Nodup := by
  refine ⟨?_, buildWeightMap_nodup rules⟩
  have h := buildWeightMap_go t rules []
  rw [buildWeightMap]
  rw [h]
  cases hf : rules.reverse.find? (fun r => r.target = t) with
  | some r => simp
  | none => simp [jsGet]

/-- The running SHA-256 hash keeps its first word below `2^32`. -/
theorem sha256_foldl_a_lt (blocks : List (List Nat)) :
    ∀ H : Sha256State, H.a < w32 → (blocks.foldl sha256Block H).a < w32 := by
  induction blocks with
  | nil => intro H h; exact h
  | cons b bs ih =>
    intro H _
    rw [List.foldl_cons]
    apply ih
    have hstep : (sha256Block H b).a
        = add32 H.a (((sha256Extend b 48).zip sha256K).foldl
            (fun st p => sha256Round st p.2 p.1) H).a := rfl
    rw [hstep]
    exact Nat.mod_lt _ (by decide)

/-- The 32-bit prefix extracted by `deterministicRandom` is below `2^32`. -/
theorem sha256First32_lt (s : String) : sha256First32 s < w32 := by
  unfold sha256First32 sha256
  exact sha256_foldl_a_lt _ sha256H0 (by decide)

/-- **C2** amended (corrected).  For a non-empty `userId`, the rational used
by the weighted pick equals the first 32 bits of
`SHA-256("{userId}:{promptId}:{salt}")` divided by `2³² − 1` (not `2³²`),
and therefore lies in `[0, 1]` (not necessarily `[0, 1)`). -/
theorem C2_deterministic_random (rng : ℚ) (u p s : String) (hu : u ≠ "") :
    deterministicRandom rng (some u) p s
        = (sha256First32 (u ++ ":" ++ p ++ ":" ++ s) : ℚ) / (2 ^ 32 - 1) ∧
    0 ≤ deterministicRandom rng (some u) p s ∧
    deterministicRandom rng (some u) p s ≤ 1 := by
  have hfalsy : jsFalsyStr (some u) = false := by simp [jsFalsyStr, hu]
  have heq : deterministicRandom rng (some u) p s
      = (sha256First32 (u ++ ":" ++ p ++ ":" ++ s) : ℚ) / 4294967295 := by
    simp [deterministicRandom, hfalsy]
  have h2 : (2 ^ 32 - 1 : ℚ) = 4294967295 := by norm_num
  refine ⟨by rw [heq, h2], ?_, ?_⟩
  · rw [heq]
    positivity
  · rw [heq, div_le_one (by norm_num)]
    have hlt := sha256First32_lt (u ++ ":" ++ p ++ ":" ++ s)
    have hle : sha256First32 (u ++ ":" ++ p ++ ":" ++ s) ≤ 4294967295 := by
      unfold w32 at hlt
      omega
    exact_mod_cast hle

/-- Witness for C2 at the concrete routing input
`("alice", "greeting", salt "tag")`. -/
theorem C2_deterministic_random_witness :
    deterministicRandom 0 (some "alice") "greeting" "tag"
        = (sha256First32 ("alice" ++ ":" ++ "greeting" ++ ":" ++ "tag") : ℚ) / (2 ^ 32 - 1) ∧
    0 ≤ deterministicRandom 0 (some "alice") "greeting" "tag" ∧
    deterministicRandom 0 (some "alice") "greeting" "tag" ≤ 1 :=
  C2_deterministic_random 0 "alice" "greeting" "tag" (by decide)

/-- A weighted-pick layer of `selectVariant` that returns normally reports
the layer's own reason. -/
theorem layerReason (pw : Except String (String × ℚ))
    (variants : List (String × Variant)) (pid : String) (rz : Reason)
    (sel : VariantSelection)
    (h : (do
          let kw ← pw
          let v ← validateAndGetVariant variants kw.1 pid
          return (⟨kw.1, v, rz, some kw.2⟩ : VariantSelection)) = .ok sel) :
    sel.reason = rz := by
  cases pw with
  | error e => simp [Bind.bind, Except.bind] at h
  | ok kw =>
    simp only [Bind.bind, Except.bind] at h
    cases hv : validateAndGetVariant variants kw.1 pid with
    | error e => rw [hv] at h; simp at h
    | ok v =>
      rw [hv] at h
      simp only [pure, Except.pure, Except.ok.injEq] at h
      rw [← h]

theorem insertDesc_ne_nil (p : PhasedRule) (l : List PhasedRule) :
    insertDesc p l ≠ [] := by
  cases l with
  | nil => simp [insertDesc]
  | cons q rest =>
    simp only [insertDesc]
    split <;> simp

/-- The code's "greatest `start` in window" pick exists iff some phased
entry covers `now`. -/
theorem currentPhaseOf_eq_none_iff (phases : List PhasedRule) (now : Int) :
    currentPhaseOf phases now = none ↔ phases.filter (phaseActive now) = [] := by
  unfold currentPhaseOf
  cases hf : phases.filter (phaseActive now) with
  | nil => simp [sortByStartDesc]
  | cons p rest =>
    simp only [sortByStartDesc]
    cases hins : insertDesc p (sortByStartDesc rest) with
    | nil => exact absurd hins (insertDesc_ne_nil _ _)
    | cons a as => simp

/-- The reason returned by a normally-returning `selectVariant` call, as a
function of the four policy-layer conditions. -/
theorem selectVariant_reason (rng : ℚ) (params : VariantSelectorParams)
    (sel : VariantSelection) (h : selectVariant rng params = .ok sel) :
    sel.reason =
      (if tagRulesOf ((params.prompt.routing.map (·.rules)).getD []) params.tags ≠ [] then
        .tagMatch
      else if (((params.prompt.routing.bind (·.phased)).getD []).filter
          (phaseActive params.now)) ≠ [] then
        .phasedRollout
      else if defaultRulesOf ((params.prompt.routing.map (·.rules)).getD []) ≠ [] then
        .weightDistribution
      else
        .default) := by
  unfold selectVariant at h
  by_cases htag : (tagRulesOf ((params.prompt.routing.map (·.rules)).getD [])
      params.tags).isEmpty = false
  · rw [if_pos htag] at h
    have htne : tagRulesOf ((params.prompt.routing.map (·.rules)).getD [])
        params.tags ≠ [] := by
      intro hc
      rw [hc] at htag
      simp at htag
    rw [if_pos htne]
    exact layerReason _ _ _ _ _ h
  · rw [if_neg htag] at h
    have hteq : tagRulesOf ((params.prompt.routing.map (·.rules)).getD [])
        params.tags = [] := by
      apply List.isEmpty_iff.mp
      cases hh : (tagRulesOf ((params.prompt.routing.map (·.rules)).getD [])
          params.tags).isEmpty
      · exact absurd hh htag
      · rfl
    rw [if_neg (by simp [hteq])]
    dsimp only at h
    cases hcp : currentPhaseOf ((params.prompt.routing.bind (·.phased)).getD [])
        params.now with
    | some ph =>
      rw [hcp] at h
      have hpne : (((params.prompt.routing.bind (·.phased)).getD []).filter
          (phaseActive params.now)) ≠ [] := by
        intro hc
        rw [(currentPhaseOf_eq_none_iff _ _).mpr hc] at hcp
        cases hcp
      rw [if_pos hpne]
      exact layerReason _ _ _ _ _ h
    | none =>
      rw [hcp] at h
      have hpeq := (currentPhaseOf_eq_none_iff _ _).mp hcp
      rw [if_neg (by simp [hpeq])]
      by_cases hdef : (defaultRulesOf
          ((params.prompt.routing.map (·.rules)).getD [])).isEmpty = false
      · rw [if_pos hdef] at h
        have hdne : defaultRulesOf ((params.prompt.routing.map (·.rules)).getD [])
            ≠ [] := by
          intro hc
          rw [hc] at hdef
          simp at hdef
        rw [if_pos hdne]
        exact layerReason _ _ _ _ _ h
      · rw [if_neg hdef] at h
        have hdeq : defaultRulesOf ((params.prompt.routing.map (·.rules)).getD [])
            = [] := by
          revert hdef
          cases hd : (defaultRulesOf
              ((params.prompt.routing.map (·.rules)).getD [])).isEmpty
          · simp
          · intro _
            exact List.isEmpty_iff.mp hd
        rw [if_neg (by simp [hdeq])]
        cases hfind : params.prompt.variants.find? (fun p => p.2.default = some true) with
        | none => rw [hfind] at h; cases h
        | some kv =>
          rw [hfind] at h
          cases kv with
          | mk k v =>
            simp only [Except.ok.injEq] at h
            rw [← h]

/-- **C1** amended (corrected).  Whenever `selectVariant` returns normally:
a matching tag rule yields reason `tag-match`; otherwise an active phased
entry (`start ≤ now ≤ end`, absent `end` = ∞) yields `phased-rollout`;
otherwise the mere *existence* of a rule with absent or empty tags —
regardless of its weight, including weight 0 — yields
`weight-distribution`; only when no untagged rule exists at all is the
reason `default`. -/
theorem C1_routing_priority (rng : ℚ) (prompt : Prompt) (promptId : String)
    (userId : Option String) (tags : List String) (now : Int)
    (sel : VariantSelection)
    (h : selectVariant rng ⟨prompt, promptId, userId, tags, now⟩ = .ok sel) :
    (tagRulesOf ((prompt.routing.map (·.rules)).getD []) tags ≠ [] →
      sel.reason = .tagMatch) ∧
    (tagRulesOf ((prompt.routing.map (·.rules)).getD []) tags = [] →
      (((prompt.routing.bind (·.phased)).getD []).filter (phaseActive now)) ≠ [] →
      sel.reason = .phasedRollout) ∧
    (tagRulesOf ((prompt.routing.map (·.rules)).getD []) tags = [] →
      (((prompt.routing.bind (·.phased)).getD []).filter (phaseActive now)) = [] →
      defaultRulesOf ((prompt.routing.map (·.rules)).getD []) ≠ [] →
      sel.reason = .weightDistribution) ∧
    (tagRulesOf ((prompt.routing.map (·.rules)).getD []) tags = [] →
      (((prompt.routing.bind (·.phased)).getD []).filter (phaseActive now)) = [] →
      defaultRulesOf ((prompt.routing.map (·.rules)).getD []) = [] →
      sel.reason = .default) := by
  have hr := selectVariant_reason rng ⟨prompt, promptId, userId, tags, now⟩ sel h
  refine ⟨?_, ?_, ?_, ?_⟩
  · intro h1
    rw [hr]
    simp [h1]
  · intro h1 h2
    rw [hr]
    simp [h1, h2]
  · intro h1 h2 h3
    rw [hr]
    simp [h1, h2, h3]
  · intro h1 h2 h3
    rw [hr]
    simp [h1, h2, h3]

/-- Witness for C1 at the spec's tag-routing scenario: a matching `US` tag
rule selects with reason `tag-match`. -/
theorem C1_routing_priority_witness :
    selectVariant 0 ⟨promptTagged, "p", none, ["US"], 0⟩
        = .ok ⟨"v_def", variantV, .tagMatch, some 70⟩ ∧
    (VariantSelection.mk "v_def" variantV .tagMatch (some 70)).reason = .tagMatch :=
  ⟨by with_unfolding_all decide,
   (C1_routing_priority 0 promptTagged "p" none ["US"] 0 _
      (by with_unfolding_all decide)).1 (by with_unfolding_all decide)⟩

/-- A `for … of` loop with throws, characterized: it returns normally iff
every item passes its boolean condition, and otherwise throws with the
loop's error class. -/
theorem forEachE_cases (γ : VClass) (P : α → Bool) (l : List α)
    (f : α → Except VErr Unit)
    (hpt : ∀ x ∈ l, (P x = true ∧ f x = .ok ()) ∨
      (P x = false ∧ ∃ m, f x = .error ⟨γ, m⟩)) :
    (l.all P = true ∧ forEachE l f = .ok ()) ∨
    (l.all P = false ∧ ∃ m, forEachE l f = .error ⟨γ, m⟩) := by
  induction l with
  | nil => left; exact ⟨rfl, rfl⟩
  | cons x xs ih =>
    rcases hpt x (by simp) with ⟨hp, hf⟩ | ⟨hp, m, hf⟩
    · rcases ih (fun y hy => hpt y (by simp [hy])) with ⟨ha, hfe⟩ | ⟨ha, m, hfe⟩
      · left
        exact ⟨by simp [List.all_cons, hp, ha],
          by simp [forEachE, Bind.bind, Except.bind, hf, hfe]⟩
      · right
        exact ⟨by simp [List.all_cons, ha],
          m, by simp [forEachE, Bind.bind, Except.bind, hf, hfe]⟩
    · right
      exact ⟨by simp [List.all_cons, hp],
        m, by simp [forEachE, Bind.bind, Except.bind, hf]⟩

theorem validateVersion_cases (c : Config) :
    (versionOkB c = true ∧ validateVersion c = .ok ()) ∨
    (versionOkB c = false ∧ ∃ m, validateVersion c = .error ⟨.version, m⟩) := by
  unfold validateVersion versionOkB
  cases hsm : semverMajor c.version with
  | none =>
    simp only [hsm]
    right
    exact ⟨by simp, "Invalid version format", rfl⟩
  | some mj =>
    simp only [hsm]
    cases hmem : SUPPORTED_MAJOR_VERSIONS.contains mj with
    | true =>
      left
      exact ⟨rfl, by simp⟩
    | false =>
      right
      exact ⟨rfl, "Unsupported major version", by simp⟩

theorem validateDefaultVariants_cases (c : Config) :
    (defaultsOkB c = true ∧ validateDefaultVariants c = .ok ()) ∨
    (defaultsOkB c = false ∧ ∃ m, validateDefaultVariants c = .error ⟨.defaults, m⟩) := by
  unfold validateDefaultVariants
  cases hd : defaultsOkB c <;> simp [hd]

theorem validateResponseSchemas_cases (c : Config) :
    (schemasOkB c = true ∧ validateResponseSchemas c = .ok ()) ∨
    (schemasOkB c = false ∧ ∃ m, validateResponseSchemas c = .error ⟨.responseSchemas, m⟩) := by
  unfold validateResponseSchemas schemasOkB
  cases hf : fragsOkB c <;> cases hr : refsOkB c <;> simp [hf, hr]

theorem validateFallbackTargets_cases (c : Config) :
    (fallbacksOkB c = true ∧ validateFallbackTargets c = .ok ()) ∨
    (fallbacksOkB c = false ∧ ∃ m, validateFallbackTargets c = .error ⟨.fallbacks, m⟩) := by
  unfold validateFallbackTargets
  cases hf : fallbacksOkB c <;> simp [hf]

theorem validateRequiredVariantStrict_cases (c : Config) (v : Variant) :
    (requiredVariantStrictOkB c v = true ∧ validateRequiredVariantStrict c v = .ok ()) ∨
    (requiredVariantStrictOkB c v = false ∧
      ∃ m, validateRequiredVariantStrict c v = .error ⟨.requiredParams, m⟩) := by
  unfold validateRequiredVariantStrict requiredVariantStrictOkB
  cases hp : jsGet c.providers v.provider with
  | none => simp [hp]
  | some provider =>
    cases hq : requiredParamsPresentB v provider <;> simp [hp, hq]

theorem validateRequiredVariantLenient_cases (c : Config) (v : Variant) :
    (requiredVariantLenientOkB c v = true ∧ validateRequiredVariantLenient c v = .ok ()) ∨
    (requiredVariantLenientOkB c v = false ∧
      ∃ m, validateRequiredVariantLenient c v = .error ⟨.requiredParams, m⟩) := by
  unfold validateRequiredVariantLenient requiredVariantLenientOkB
  cases hp : jsGet c.providers v.provider with
  | none => simp [hp]
  | some provider =>
    cases hq : requiredParamsPresentB v provider <;> simp [hp, hq]

theorem validateTemplateMessage_cases (lp : String → Bool) (m : Message) :
    (templateMsgOkB lp m = true ∧ validateTemplateMessage lp m = .ok ()) ∨
    (templateMsgOkB lp m = false ∧
      ∃ m', validateTemplateMessage lp m = .error ⟨.templates, m'⟩) := by
  unfold validateTemplateMessage templateMsgOkB
  by_cases h1 : m.content.template = ""
  · simp [h1]
  · cases h2 : lp m.content.template <;> simp [h1, h2]

theorem validateRoutingPrompt_cases (p : Prompt) (hsome : p.routing ≠ none) :
    (routingPromptOkB p = true ∧ validateRoutingPrompt p = .ok ()) ∨
    (routingPromptOkB p = false ∧
      ∃ m, validateRoutingPrompt p = .error ⟨.routing, m⟩) := by
  obtain ⟨r, hr⟩ := Option.ne_none_iff_exists'.mp hsome
  unfold validateRoutingPrompt routingPromptOkB
  simp only [hr]
  cases h1 : r.rules.all (fun rl => (jsKeys p.variants).contains rl.target) with
  | false =>
    right
    exact ⟨by simp, "targets non-existent variant", by simp⟩
  | true =>
    cases h2 : r.rules.any (fun rl => ruleWeight rl > 0) with
    | false =>
      right
      exact ⟨by simp, "all routing rules with weight 0", by simp⟩
    | true =>
      have hph := forEachE_cases .routing
        (fun ph => ph.weights.all (fun kw => (jsKeys p.variants).contains kw.1) &&
          (ph.weights.map (·.2)).any (fun w => w > 0))
        (r.phased.getD [])
        (fun ph =>
          if (ph.weights.all (fun kw => (jsKeys p.variants).contains kw.1)) = false then
            .error ⟨.routing, "weight for non-existent variant"⟩
          else if ((ph.weights.map (·.2)).any (fun w => w > 0)) = false then
            .error ⟨.routing, "all weights set to 0"⟩
          else .ok ())
        (by
          intro ph _
          dsimp only
          cases hw1 : ph.weights.all (fun kw => (jsKeys p.variants).contains kw.1) with
          | false =>
            right
            exact ⟨by simp, "weight for non-existent variant", by simp⟩
          | true =>
            cases hw2 : (ph.weights.map (·.2)).any (fun w => w > 0) with
            | false =>
              right
              exact ⟨by simp, "all weights set to 0", by simp⟩
            | true =>
              left
              exact ⟨by simp, by simp⟩)
      rcases hph with ⟨hall, hfe⟩ | ⟨hall, m, hfe⟩
      · left
        refine ⟨by rw [hall]; rfl, ?_⟩
        rw [if_neg (by simp), if_neg (by simp)]
        exact hfe
      · right
        refine ⟨by rw [hall]; rfl, m, ?_⟩
        rw [if_neg (by simp), if_neg (by simp)]
        exact hfe

/-- A structurally valid config has `routing` on every prompt. -/
theorem structuralOk_routing (c : Config) (h : structuralOk c = true) :
    ∀ pp ∈ c.prompts, pp.2.routing ≠ none := by
  intro pp hpp hnone
  unfold structuralOk at h
  simp only [Bool.and_eq_true] at h
  obtain ⟨⟨⟨⟨-, -⟩, -⟩, -⟩, hall⟩ := h
  rw [List.all_eq_true] at hall
  have hp := hall pp hpp
  simp only [Bool.and_eq_true] at hp
  have hps := hp.2
  unfold promptOkS at hps
  simp only [Bool.and_eq_true] at hps
  obtain ⟨⟨-, -⟩, hroute⟩ := hps
  rw [hnone] at hroute
  simp at hroute

theorem validateRoutingConfiguration_cases (c : Config)
    (hstruct : structuralOk c = true) :
    (routingOkB c = true ∧ validateRoutingConfiguration c = .ok ()) ∨
    (routingOkB c = false ∧
      ∃ m, validateRoutingConfiguration c = .error ⟨.routing, m⟩) := by
  unfold routingOkB validateRoutingConfiguration
  exact forEachE_cases .routing (fun pkv => routingPromptOkB pkv.2) c.prompts
    (fun pkv => validateRoutingPrompt pkv.2)
    (fun pp hpp => validateRoutingPrompt_cases pp.2 (structuralOk_routing c hstruct pp hpp))

theorem validateRequiredParametersStrict_cases (c : Config) :
    (requiredStrictOkB c = true ∧ validateRequiredParametersStrict c = .ok ()) ∨
    (requiredStrictOkB c = false ∧
      ∃ m, validateRequiredParametersStrict c = .error ⟨.requiredParams, m⟩) := by
  unfold requiredStrictOkB validateRequiredParametersStrict
  exact forEachE_cases .requiredParams
    (fun pkv => pkv.2.variants.all (fun vkv => requiredVariantStrictOkB c vkv.2))
    c.prompts
    (fun pkv => forEachE pkv.2.variants (fun vkv => validateRequiredVariantStrict c vkv.2))
    (fun pp _ => forEachE_cases .requiredParams
      (fun vkv => requiredVariantStrictOkB c vkv.2) pp.2.variants
      (fun vkv => validateRequiredVariantStrict c vkv.2)
      (fun vv _ => validateRequiredVariantStrict_cases c vv.2))

theorem validateRequiredParametersLenient_cases (c : Config) :
    (requiredLenientOkB c = true ∧ validateRequiredParametersLenient c = .ok ()) ∨
    (requiredLenientOkB c = false ∧
      ∃ m, validateRequiredParametersLenient c = .error ⟨.requiredParams, m⟩) := by
  unfold requiredLenientOkB validateRequiredParametersLenient
  exact forEachE_cases .requiredParams
    (fun pkv => pkv.2.variants.all (fun vkv => requiredVariantLenientOkB c vkv.2))
    c.prompts
    (fun pkv => forEachE pkv.2.variants (fun vkv => validateRequiredVariantLenient c vkv.2))
    (fun pp _ => forEachE_cases .requiredParams
      (fun vkv => requiredVariantLenientOkB c vkv.2) pp.2.variants
      (fun vkv => validateRequiredVariantLenient c vkv.2)
      (fun vv _ => validateRequiredVariantLenient_cases c vv.2))

theorem validateTemplates_cases (lp : String → Bool) (c : Config) :
    (templatesOkB lp c = true ∧ validateTemplates lp c = .ok ()) ∨
    (templatesOkB lp c = false ∧
      ∃ m, validateTemplates lp c = .error ⟨.templates, m⟩) := by
  unfold templatesOkB validateTemplates
  exact forEachE_cases .templates
    (fun pkv => pkv.2.variants.all (fun vkv => vkv.2.messages.all (templateMsgOkB lp)))
    c.prompts
    (fun pkv => forEachE pkv.2.variants
      (fun vkv => forEachE vkv.2.messages (fun m => validateTemplateMessage lp m)))
    (fun pp _ => forEachE_cases .templates
      (fun vkv => vkv.2.messages.all (templateMsgOkB lp)) pp.2.variants
      (fun vkv => forEachE vkv.2.messages (fun m => validateTemplateMessage lp m))
      (fun vv _ => forEachE_cases .templates (templateMsgOkB lp) vv.2.messages
        (fun m => validateTemplateMessage lp m)
        (fun m _ => validateTemplateMessage_cases lp m)))

/-- **C4** amended (corrected).  Neither entry point runs all seven claimed
classes.  `validateConfig` runs the structural stage, then classes (1)
version, (2) default-variant, (6) required-parameters, (7) templates — in
that order, throwing at the first failing class, and never runs classes
(3), (4), (5).  `validateAndLoadConfigFile` runs the structural stage, then
(1), (2), (3), (4), (5), (6) in that order, and never runs class (7). -/
theorem C4_validation_sequence (lp : String → Bool) (c : Config) :
    resultClass (validateConfig lp c) = firstFailA lp c ∧
    resultClass (validateAndLoadConfigFile c) = firstFailB c := by
  by_cases hs : structuralOk c = false
  · constructor <;>
      simp [validateConfig, validateAndLoadConfigFile, hs, firstFailA, firstFailB,
        resultClass]
  · have hs' : structuralOk c = true := by
      revert hs
      cases structuralOk c <;> simp
    constructor
    · rcases validateVersion_cases c with ⟨hv, hvr⟩ | ⟨hv, _, hvr⟩ <;>
        rcases validateDefaultVariants_cases c with ⟨hd, hdr⟩ | ⟨hd, _, hdr⟩ <;>
        rcases validateRequiredParametersStrict_cases c with ⟨hq, hqr⟩ | ⟨hq, _, hqr⟩ <;>
        rcases validateTemplates_cases lp c with ⟨ht, htr⟩ | ⟨ht, _, htr⟩ <;>
        simp [validateConfig, Bind.bind, Except.bind, pure, Except.pure, hs', hv, hvr,
          hd, hdr, hq, hqr, ht, htr, firstFailA, resultClass]
    · rcases validateVersion_cases c with ⟨hv, hvr⟩ | ⟨hv, _, hvr⟩ <;>
        rcases validateDefaultVariants_cases c with ⟨hd, hdr⟩ | ⟨hd, _, hdr⟩ <;>
        rcases validateResponseSchemas_cases c with ⟨hsc, hscr⟩ | ⟨hsc, _, hscr⟩ <;>
        rcases validateRoutingConfiguration_cases c hs' with ⟨hro, hror⟩ | ⟨hro, _, hror⟩ <;>
        rcases validateFallbackTargets_cases c with ⟨hfb, hfbr⟩ | ⟨hfb, _, hfbr⟩ <;>
        rcases validateRequiredParametersLenient_cases c with ⟨hq, hqr⟩ | ⟨hq, _, hqr⟩ <;>
        simp [validateAndLoadConfigFile, Bind.bind, Except.bind, pure, Except.pure, hs',
          hv, hvr, hd, hdr, hsc, hscr, hro, hror, hfb, hfbr, hq, hqr, firstFailB,
          resultClass]

/-- A config accepted by `validateAndLoadConfigFile` passed its structural
stage and its reference checks. -/
theorem validateAndLoadConfigFile_components (c c' : Config)
    (h : validateAndLoadConfigFile c = .ok c') :
    structuralOk c = true ∧ validateResponseSchemas c = .ok () ∧
    validateRoutingConfiguration c = .ok () ∧ validateFallbackTargets c = .ok () := by
  unfold validateAndLoadConfigFile at h
  by_cases hs : structuralOk c = false
  · simp [hs] at h
  · have hs' : structuralOk c = true := by
      revert hs
      cases structuralOk c <;> simp
    refine ⟨hs', ?_⟩
    rw [if_neg (by simp [hs'])] at h
    cases hv : validateVersion c with
    | error e => rw [hv] at h; simp [Bind.bind, Except.bind] at h
    | ok u =>
      cases u
      rw [hv] at h
      simp only [Bind.bind, Except.bind] at h
      cases hd : validateDefaultVariants c with
      | error e => rw [hd] at h; simp [Except.bind] at h
      | ok u =>
        cases u
        rw [hd] at h
        simp only [Except.bind] at h
        cases hsc : validateResponseSchemas c with
        | error e => rw [hsc] at h; simp [Except.bind] at h
        | ok u =>
          cases u
          rw [hsc] at h
          simp only [Except.bind] at h
          cases hro : validateRoutingConfiguration c with
          | error e => rw [hro] at h; simp [Except.bind] at h
          | ok u =>
            cases u
            rw [hro] at h
            simp only [Except.bind] at h
            cases hfb : validateFallbackTargets c with
            | error e => rw [hfb] at h; simp [Except.bind] at h
            | ok u =>
              cases u
              exact ⟨rfl, rfl, rfl⟩

/-- **C5** amended (corrected).  Reference closure holds for every config
accepted by `ConfigValidator.validateAndLoadConfigFile` (the validator used
by the orchestrator): every routing rule target and phased weight key names
a variant of its prompt, every fallback provider is declared, and every
`json_schema` variant's `schemaRef` resolves.  (The standalone
`validateConfig` of `src/validation/index.ts` does *not* guarantee closure
— see the counterexample.) -/
theorem C5_reference_closure (c c' : Config)
    (h : validateAndLoadConfigFile c = .ok c') :
    RoutingClosed c ∧ FallbacksClosed c ∧ SchemaRefsClosed c := by
  obtain ⟨hs, hsch, hro, hfb⟩ := validateAndLoadConfigFile_components c c' h
  have hroB : routingOkB c = true := by
    rcases validateRoutingConfiguration_cases c hs with ⟨hb, _⟩ | ⟨_, m, he⟩
    · exact hb
    · rw [hro] at he
      cases he
  have hfbB : fallbacksOkB c = true := by
    rcases validateFallbackTargets_cases c with ⟨hb, _⟩ | ⟨_, m, he⟩
    · exact hb
    · rw [hfb] at he
      cases he
  have hrefB : refsOkB c = true := by
    rcases validateResponseSchemas_cases c with ⟨hb, _⟩ | ⟨_, m, he⟩
    · unfold schemasOkB at hb
      simp only [Bool.and_eq_true] at hb
      exact hb.2
    · rw [hsch] at he
      cases he
  refine ⟨?_, ?_, ?_⟩
  · intro pp hpp routing hrouting
    have hpB : routingPromptOkB pp.2 = true := by
      unfold routingOkB at hroB
      rw [List.all_eq_true] at hroB
      exact hroB pp hpp
    unfold routingPromptOkB at hpB
    simp only [hrouting] at hpB
    simp only [Bool.and_eq_true] at hpB
    obtain ⟨⟨htargets, -⟩, hphased⟩ := hpB
    constructor
    · intro r hrr
      have h3 := List.all_eq_true.mp htargets r hrr
      exact List.elem_iff.mp (by simpa using h3)
    · intro ph hph kw hkw
      have hphOk := List.all_eq_true.mp hphased ph hph
      simp only [Bool.and_eq_true] at hphOk
      have h3 := List.all_eq_true.mp hphOk.1 kw hkw
      exact List.elem_iff.mp (by simpa using h3)
  · intro pp hpp vv hvv fb hfb2
    unfold fallbacksOkB at hfbB
    rw [List.all_eq_true] at hfbB
    have h1 := hfbB pp hpp
    rw [List.all_eq_true] at h1
    have h2 := h1 vv hvv
    rw [List.all_eq_true] at h2
    have h3 := h2 fb hfb2
    exact List.elem_iff.mp (by simpa using h3)
  · intro pp hpp vv hvv rf hrf htype
    unfold refsOkB at hrefB
    rw [List.all_eq_true] at hrefB
    have h1 := hrefB pp hpp
    rw [List.all_eq_true] at h1
    have h2 := h1 vv hvv
    simp only [hrf] at h2
    obtain ⟨rft, rfref⟩ := rf
    simp only at htype
    subst htype
    cases rfref with
    | none => simp at h2
    | some ref =>
      simp only [Bool.and_eq_true] at h2
      refine ⟨ref, rfl, ?_⟩
      simpa using h2.2

/-- Witness for C5: `cfgGood` (routing, phased weights, fallbacks and a
schema reference, all well-formed) is accepted, hence closed. -/
theorem C5_reference_closure_witness :
    RoutingClosed cfgGood ∧ FallbacksClosed cfgGood ∧ SchemaRefsClosed cfgGood :=
  C5_reference_closure cfgGood cfgGood (by with_unfolding_all decide)

end Promptuna
